import Mathlib

/-!
Verification of the Sidiya reminder/escalation engine (src/app of the
BiocliqAI/sidiya repository) against its natural-language specification.

The development is a shallow embedding of the Python source:

  * `src/app/reminder_engine.py` — frequency normalizer, rule generation;
  * `src/app/notifications.py`   — dispatch, dedupe, the rule scheduler;
  * `src/app/escalation.py`      — threshold checks, missed-action handling,
    escalation lifecycle, auto-resolution;
  * `src/app/main.py`            — the patient-action and operator endpoints;
  * `src/app/firestore_client.py` — the store, modelled as in-memory lists.

Modelling conventions, used throughout and noted at each definition they
affect:

  * Clock times and timestamps are natural numbers counting minutes.  A
    UTC instant is `now : Nat` (minutes since an epoch); the source's
    `_ist_now()` is `datetime.now(timezone.utc) + timedelta(hours=5,
    minutes=30)`, i.e. the shifted value `now + 330`.  Calendar dates
    (the source's `strftime("%Y-%m-%d")` strings) are day indices
    `minutes / 1440`; equality of the date strings coincides with
    equality of the day indices.  The source's lexicographic comparison
    `current_time >= "12:00"` of zero-padded `"%H:%M"` strings coincides
    with the numeric comparison `minutes-of-day ≥ 720`.
  * Weights and thresholds (Python floats) are rationals; the inputs the
    program handles are small decimals, where float and rational
    arithmetic agree.
  * Firestore documents become structures; a `dict.get(k)` of a possibly
    missing field becomes an `Option` field; Python string truthiness
    (missing or empty phone numbers) is `Option String` with `none` for
    both.  Auto-generated document ids are allocated from a single
    counter `nextId`.  Query results preserve insertion order.
  * The push and SMS gateways are an `Env` of oracles: each attempt's
    success (including "the client library threw") is the oracle's
    verdict; whether Twilio credentials are configured is a flag.
    Every attempted gateway send is recorded in an `events` list.
  * Display-only fields that no control flow reads (`trigger_value`,
    `threshold`, `notified`, appointment payload details, the numeric
    text inside alert messages) are either omitted or rendered with
    `toString` where a message string must exist.
-/

namespace Sidiya

/-! ## String helpers (Python `str.lower`, `str.strip`, `in`) -/

/-- ASCII lowering of one character; the source's `str.lower()` on the
ASCII strings this program handles. -/
def asciiLower (c : Char) : Char :=
  if 'A' ≤ c ∧ c ≤ 'Z' then Char.ofNat (c.toNat + 32) else c

/-- The whitespace `str.strip()` removes. -/
def isPySpace (c : Char) : Bool :=
  c = ' ' ∨ c = '\t' ∨ c = '\n' ∨ c = '\r' ∨ c.toNat = 11 ∨ c.toNat = 12

def stripL (l : List Char) : List Char :=
  ((l.dropWhile isPySpace).reverse.dropWhile isPySpace).reverse

/-- Python `s.strip()`. -/
def stripStr (s : String) : String := String.mk (stripL s.data)

/-- Python `s.lower()`. -/
def lowerStr (s : String) : String := String.mk (s.data.map asciiLower)

def startsWithL : List Char → List Char → Bool
  | [], _ => true
  | _ :: _, [] => false
  | n :: ns, h :: hs => n = h && startsWithL ns hs

def containsL (needle : List Char) : List Char → Bool
  | [] => needle.isEmpty
  | h :: hs => startsWithL needle (h :: hs) || containsL needle hs

/-- Python `needle in hay` on strings. -/
def strContains (hay needle : String) : Bool := containsL needle.data hay.data

/-- Python `", ".join(l)`. -/
def joinComma (l : List String) : String := String.intercalate ", " l

/-- Python `s.split(":")` on the character list. -/
def splitOnColon : List Char → List (List Char)
  | [] => [[]]
  | c :: rest =>
    if c = ':' then [] :: splitOnColon rest
    else
      match splitOnColon rest with
      | [] => [[c]]
      | part :: parts => (c :: part) :: parts

/-- `int(...)` of a digit string (the schedule strings this program
handles are plain digits; Python's `int` would additionally strip
whitespace and accept a sign). -/
def digitsToNat (l : List Char) : Option Nat :=
  if !l.isEmpty && l.all Char.isDigit then
    some (l.foldl (fun n c => n * 10 + (c.toNat - 48)) 0)
  else none

/-- `h, m = map(int, t.split(":"))`, as both `notifications._is_rule_due`
and `escalation.check_missed_actions` run it inside `try/except`: `none`
is the exception path (wrong number of `:`-separated parts, or a part
that is not a number). -/
def parseHM (t : String) : Option (Nat × Nat) :=
  match splitOnColon t.data with
  | [hs, ms] =>
    match digitsToNat hs, digitsToNat ms with
    | some h, some m => some (h, m)
    | _, _ => none
  | _ => none

/-- Rational subtraction in a kernel-evaluable form (the library's
`Rat.sub` is `@[irreducible]`, which blocks `decide` on concrete
states); `ratSub_eq` below shows it is ordinary subtraction. -/
def ratSub (a b : Rat) : Rat := mkRat (a.num * b.den - b.num * a.den) (a.den * b.den)

/-! ## Frequency normalizer (`reminder_engine._FREQ_TIME_MAP`,
`reminder_engine._parse_frequency_to_times`) -/

/-- `_FREQ_TIME_MAP`, in source order (Python dicts preserve insertion
order, which the keyword-search stage iterates in). -/
def freqTimeMap : List (String × List String) :=
  [ ("1-0-0", ["08:00"]),
    ("0-1-0", ["14:00"]),
    ("0-0-1", ["21:00"]),
    ("1-1-0", ["08:00", "14:00"]),
    ("1-0-1", ["08:00", "21:00"]),
    ("0-1-1", ["14:00", "21:00"]),
    ("1-1-1", ["08:00", "14:00", "21:00"]),
    ("1-1-1-1", ["06:00", "12:00", "18:00", "22:00"]),
    ("once daily", ["08:00"]),
    ("od", ["08:00"]),
    ("once a day", ["08:00"]),
    ("qd", ["08:00"]),
    ("daily", ["08:00"]),
    ("bd", ["08:00", "21:00"]),
    ("bid", ["08:00", "21:00"]),
    ("twice daily", ["08:00", "21:00"]),
    ("twice a day", ["08:00", "21:00"]),
    ("tds", ["08:00", "14:00", "21:00"]),
    ("tid", ["08:00", "14:00", "21:00"]),
    ("thrice daily", ["08:00", "14:00", "21:00"]),
    ("three times a day", ["08:00", "14:00", "21:00"]),
    ("qid", ["06:00", "12:00", "18:00", "22:00"]),
    ("four times a day", ["06:00", "12:00", "18:00", "22:00"]),
    ("at night", ["21:00"]),
    ("hs", ["21:00"]),
    ("at bedtime", ["21:00"]),
    ("morning", ["08:00"]),
    ("evening", ["18:00"]),
    ("night", ["21:00"]),
    ("sos", []),
    ("prn", []),
    ("stat", []),
    ("weekly", ["08:00"]) ]

/-- `k in _FREQ_TIME_MAP` / `_FREQ_TIME_MAP[k]`. -/
def freqLookup (k : String) : Option (List String) :=
  (freqTimeMap.find? (fun kv => kv.1 = k)).map (·.2)

/-- One character of the regex class `[01]`. -/
def isBitChar (c : Char) : Bool := c = '0' || c = '1'

/-- A regex word character (`\w`), for the `\b` boundaries; the inputs are
ASCII. -/
def isWordChar (c : Char) : Bool := c.isAlphanum || c = '_'

/-- The trailing `\b`: end of string or a non-word character next. -/
def boundaryAfter : List Char → Bool
  | [] => true
  | c :: _ => !isWordChar c

/-- The greedy alternative of `([01]-[01]-[01](?:-[01])?)\b` at the start
of `l`: the four-slot dash pattern. -/
def tryLong (l : List Char) : Option String :=
  match l with
  | a :: '-' :: b :: '-' :: c :: '-' :: d :: rest =>
    if isBitChar a && isBitChar b && isBitChar c && isBitChar d && boundaryAfter rest then
      some (String.mk [a, '-', b, '-', c, '-', d])
    else none
  | _ => none

/-- The backtracked alternative: the three-slot dash pattern followed by
`\b`. -/
def tryShort (l : List Char) : Option String :=
  match l with
  | a :: '-' :: b :: '-' :: c :: rest =>
    if isBitChar a && isBitChar b && isBitChar c && boundaryAfter rest then
      some (String.mk [a, '-', b, '-', c])
    else none
  | _ => none

/-- `re.search(r"\b([01]-[01]-[01](?:-[01])?)\b", s)`: leftmost position
wins; at a position the greedy (four-slot) alternative is tried before the
three-slot one; `prev` is the character before the current position, for
the leading `\b` (the pattern starts with a word character, so the
boundary holds iff `prev` is absent or a non-word character). -/
def regexScan (prev : Option Char) : List Char → Option String
  | [] => none
  | c :: rest =>
    if (match prev with | none => true | some p => !isWordChar p) then
      match tryLong (c :: rest) with
      | some s => some s
      | none =>
        match tryShort (c :: rest) with
        | some s => some s
        | none => regexScan (some c) rest
    else regexScan (some c) rest

/-- `_parse_frequency_to_times`, translated clause by clause: exact map
lookup of the stripped lowercased string; embedded dash-pattern regex (a
hit that is itself a map key returns, any other outcome falls through);
keyword search over the map in insertion order, skipping empty-times
entries (`if key in freq_lower and times`); and the `["08:00"]` default
(both the warning branch for a non-empty unrecognized string and the
final `return`). -/
def parseFrequencyToTimes (frequency : String) : List String :=
  let freq := lowerStr (stripStr frequency)
  match freqLookup freq with
  | some ts => ts
  | none =>
    match (match regexScan none freq.data with
           | some pat => freqLookup pat
           | none => none) with
    | some ts => ts
    | none =>
      match freqTimeMap.find? (fun kv => strContains freq kv.1 && !kv.2.isEmpty) with
      | some kv => kv.2
      | none => ["08:00"]

/-! Spec-side restatement of the claimed matcher cascade (claim C7's
wording): a prioritized list of matcher stages evaluated in order, with a
default for what no stage recognizes.  Defined separately from
`parseFrequencyToTimes` so that their equality is a statement about the
source, not a tautology. -/

def specStageExact (freq : String) : Option (List String) := freqLookup freq

def specStageDash (freq : String) : Option (List String) :=
  (regexScan none freq.data).bind freqLookup

def specStageKeyword (freq : String) : Option (List String) :=
  (freqTimeMap.find? (fun kv => strContains freq kv.1 && !kv.2.isEmpty)).map (·.2)

def specDefaultTimes : List String := ["08:00"]

/-- The spec's five-step cascade: exact, dash-pattern, keyword, default
for an unrecognized non-empty string, the same default for an
empty/`"unknown"` string. -/
def frequencyCascadeSpec (frequency : String) : List String :=
  let freq := lowerStr (stripStr frequency)
  match specStageExact freq with
  | some ts => ts
  | none =>
    match specStageDash freq with
    | some ts => ts
    | none =>
      match specStageKeyword freq with
      | some ts => ts
      | none =>
        if freq ≠ "" ∧ freq ≠ "unknown" then specDefaultTimes else specDefaultTimes

/-- No stage of the cascade recognizes the (normalized) string. -/
def Unrecognized (frequency : String) : Prop :=
  specStageExact (lowerStr (stripStr frequency)) = none ∧
  specStageDash (lowerStr (stripStr frequency)) = none ∧
  specStageKeyword (lowerStr (stripStr frequency)) = none

/-! ## Time

`now : Nat` is a UTC instant in minutes since an epoch.  `_ist_now()` is
the UTC-tagged datetime shifted forward by 5 h 30 min = 330 min; its
`.timestamp()` is therefore `now + 330` — 330 minutes ahead of the true
epoch time, which matters wherever the source subtracts a stored UTC
timestamp from an `_ist_now()` timestamp. -/

/-- Minutes offset of IST from UTC (`timedelta(hours=5, minutes=30)`). -/
def istOffset : Nat := 330

/-- The day index of `_today_iso()` (`firestore_client`, UTC). -/
def utcDay (now : Nat) : Nat := now / 1440

/-- The day index of `_ist_now().strftime("%Y-%m-%d")`. -/
def istDay (now : Nat) : Nat := (now + istOffset) / 1440

/-- Minutes-of-day of `_ist_now().strftime("%H:%M")`. -/
def istMin (now : Nat) : Nat := (now + istOffset) % 1440

/-- Day index of `(_ist_now() - timedelta(days=k)).strftime("%Y-%m-%d")`. -/
def istDayBack (now k : Nat) : Nat := (now + istOffset - 1440 * k) / 1440

/-! ## Data model -/

/-- The part of the patient document the engine reads
(`thresholds` written by `generate_reminder_rules`, read by
`check_weight_thresholds` / `check_symptom_red_flags`).  Each field is
`Option`al exactly as `thresholds.get(key, default)` is read. -/
structure Thresholds where
  weight_gain_24h : Option Rat
  weight_gain_7d : Option Rat
  yellow_zone : List String
  red_zone : List String
deriving DecidableEq, Repr

/-- A patient document.  `phone`/`caregiver_phone`/`nurse_phone` are
`none` when missing or empty (Python truthiness); `pref_push`/`pref_sms`
are `notification_preferences.get("push"/"sms")`. -/
structure Patient where
  id : String
  status : String
  full_name : Option String
  phone : Option String
  caregiver_phone : Option String
  nurse_phone : Option String
  device_tokens : List String
  pref_push : Bool
  pref_sms : Bool
  thresholds : Option Thresholds
deriving DecidableEq, Repr

/-- A reminder rule's `schedule["days"]`: the string `"daily"` (or any
other string, e.g. `"weekly"`), or an explicit list of dates. -/
inductive DaysSel where
  | str (s : String)
  | dates (ds : List Nat)
deriving DecidableEq, Repr

/-- `rule["escalation"]` when it is a dict (`None` becomes the rule's
`escalation : Option EscPolicy` being `none`). -/
structure EscPolicy where
  after_minutes : Option Nat
  notify : List String
deriving DecidableEq, Repr

/-- A reminder rule document, with the payload fields the engine reads
(`medication_name`, `dose`, `indication`, `message`; `target` marks
nurse-targeted rules).  Display-only payload entries (`route`,
`frequency`, `target_weight_kg`, appointment details) are omitted. -/
structure Rule where
  id : Nat
  patient_id : String
  rtype : String
  times : List String
  days : DaysSel
  active : Bool
  target : Option String
  escalation : Option EscPolicy
  med_name : Option String
  dose : Option String
  indication : Option String
  message : Option String
deriving DecidableEq, Repr

/-- A vital log's `value`: a number (weight and similar), a dict with a
`symptoms` list (symptom check), or anything else. -/
inductive VitalValue where
  | num (v : Rat)
  | symptoms (ss : List String)
  | other
deriving DecidableEq, Repr

structure VitalLog where
  patient_id : String
  vtype : String
  value : VitalValue
  date : Nat
  logged_at : Nat
deriving DecidableEq, Repr

structure MedLog where
  patient_id : String
  medication_name : String
  scheduled_time : String
  status : String
  skip_reason : Option String
  date : Nat
deriving DecidableEq, Repr

/-- One notification-log entry (`fdb.log_notification`). -/
structure NotificationRecord where
  patient_id : String
  rule_id : Option Nat
  ntype : String
  channel : String
  title : String
  message_text : String
  status : String
  date : Nat
deriving DecidableEq, Repr

/-- An escalation document.  `date` is `none` when the creating site put
no `"date"` key in the document (weight spikes, red flags, consecutive
missed weight), so the source's `esc.get("date", "")` comparison against
a date string is `esc.date = some day` here.  `payload_med` /
`payload_sched` are `payload.get("medication_name"/"scheduled_time")`. -/
structure Escalation where
  id : Nat
  patient_id : String
  trigger_type : String
  date : Option Nat
  level : Nat
  status : String
  created_at : Nat
  payload_med : Option String
  payload_sched : Option String
  resolved_by : Option String
  resolved_at : Option Nat
deriving DecidableEq, Repr

/-- A recorded gateway attempt: an FCM multicast or a Twilio SMS. -/
inductive Event where
  | fcm (tokens : List String) (title body : String)
  | sms (phone body : String)
deriving DecidableEq, Repr

/-- The store (Firestore collections as in-memory lists, insertion
ordered) plus the list of attempted gateway sends and the id counter. -/
structure DB where
  patients : List Patient
  reminder_rules : List Rule
  vital_logs : List VitalLog
  medication_logs : List MedLog
  notifications : List NotificationRecord
  escalations : List Escalation
  events : List Event
  nextId : Nat
deriving DecidableEq, Repr

/-- The external gateways: per-attempt verdicts (a `false` covers both a
gateway failure and a thrown exception) and whether the three Twilio
credentials are configured. -/
structure Env where
  fcm_ok : List String → String → String → Bool
  sms_ok : String → String → Bool
  twilio_configured : Bool

/-! ## Store operations (`firestore_client.py`) -/

def getPatient (db : DB) (pid : String) : Option Patient :=
  db.patients.find? (fun p => p.id = pid)

def listActivePatients (db : DB) : List Patient :=
  db.patients.filter (fun p => p.status = "active")

/-- `get_reminder_rules` with its default `active_only=True`. -/
def getReminderRules (db : DB) (pid : String) : List Rule :=
  db.reminder_rules.filter (fun r => r.patient_id = pid && r.active)

def getVitalsForDate (db : DB) (pid : String) (date : Nat) (vtype : Option String) :
    List VitalLog :=
  db.vital_logs.filter (fun v =>
    v.patient_id = pid && v.date = date &&
      (match vtype with | some t => v.vtype = t | none => true))

def getMedicationLogsForDate (db : DB) (pid : String) (date : Nat) : List MedLog :=
  db.medication_logs.filter (fun m => m.patient_id = pid && m.date = date)

/-- `get_notifications_for_date`: the `rule_id` filter is applied only
when a rule id is passed (`if rule_id:`). -/
def getNotificationsForDate (db : DB) (pid : String) (date : Nat) (ruleId : Option Nat) :
    List NotificationRecord :=
  db.notifications.filter (fun n =>
    n.patient_id = pid && n.date = date &&
      (match ruleId with | some r => n.rule_id = some r | none => true))

def getOpenEscalations (db : DB) (pid : String) : List Escalation :=
  db.escalations.filter (fun e => e.status = "open" && e.patient_id = pid)

/-- `fdb.create_escalation`: status `open`, `created_at` the true UTC
instant, a fresh document id. -/
def createEscalation (db : DB) (pid trigger : String) (date : Option Nat) (level : Nat)
    (pm ps : Option String) (now : Nat) : DB × Nat :=
  ({ db with
      escalations := db.escalations ++
        [{ id := db.nextId, patient_id := pid, trigger_type := trigger, date := date,
           level := level, status := "open", created_at := now,
           payload_med := pm, payload_sched := ps, resolved_by := none,
           resolved_at := none }],
      nextId := db.nextId + 1 },
   db.nextId)

/-- `fdb.update_escalation(id, {"level": lvl})`. -/
def updateEscalationLevel (db : DB) (escId lvl : Nat) : DB :=
  { db with
    escalations := db.escalations.map (fun e =>
      if e.id = escId then { e with level := lvl } else e) }

/-- `fdb.resolve_escalation(id, resolved_by)` (and the status/resolver
part of `resolve_escalation_with_details`). -/
def resolveEscalationById (db : DB) (escId : Nat) (resolvedBy : String) (now : Nat) : DB :=
  { db with
    escalations := db.escalations.map (fun e =>
      if e.id = escId then
        { e with status := "resolved", resolved_by := some resolvedBy,
                 resolved_at := some now }
      else e) }

/-- `fdb.log_notification` (`sent_at`/`acknowledged` defaults omitted). -/
def logNotification (db : DB) (rec : NotificationRecord) : DB :=
  { db with notifications := db.notifications ++ [rec] }

/-- `fdb.add_reminder_rule`: fresh id, `active` defaulted true. -/
def addReminderRule (db : DB) (r : Nat → Rule) : DB :=
  { db with reminder_rules := db.reminder_rules ++ [r db.nextId],
            nextId := db.nextId + 1 }

/-! ## Notification delivery (`notifications.py`) -/

/-- `_send_sms`: unavailable without the three Twilio credentials or a
phone number; otherwise one attempted send whose success is the
gateway's verdict. -/
def sendSms (env : Env) (db : DB) (phone body : String) : DB × Bool :=
  if !env.twilio_configured then (db, false)
  else if phone = "" then (db, false)
  else ({ db with events := db.events ++ [Event.sms phone body] }, env.sms_ok phone body)

/-- `_send_fcm`: nothing without device tokens; otherwise one attempted
multicast whose success is the gateway's verdict. -/
def sendFcm (env : Env) (db : DB) (tokens : List String) (title body : String) : DB × Bool :=
  if tokens.isEmpty then (db, false)
  else ({ db with events := db.events ++ [Event.fcm tokens title body] },
        env.fcm_ok tokens title body)

/-- The push attempt of `send_notification` (if opted in with tokens). -/
def pushStep (env : Env) (db : DB) (p : Patient) (title body : String) : DB × String :=
  if p.pref_push ∧ ¬p.device_tokens.isEmpty then
    let r := sendFcm env db p.device_tokens title body
    (r.1, if r.2 then "push" else "failed")
  else (db, "failed")

/-- The SMS fallback of `send_notification` (if nothing delivered yet and
the patient opted in with a phone). -/
def smsStep (env : Env) (p : Patient) (body : String) (acc : DB × String) : DB × String :=
  if acc.2 = "failed" ∧ p.pref_sms ∧ p.phone.isSome then
    let r := sendSms env acc.1 (p.phone.getD "") ("Sidiya: " ++ body)
    (r.1, if r.2 then "sms" else "failed")
  else acc

/-- The two channel attempts of `send_notification`: push first, SMS as
fallback.  Returns the channel used, `"failed"` if neither worked. -/
def channelAttempts (env : Env) (db : DB) (p : Patient) (title body : String) :
    DB × String :=
  smsStep env p body (pushStep env db p title body)

/-- `send_notification`: the channel attempts, then an unconditional
notification-log entry carrying the channel used and the UTC date
(`datetime.now(timezone.utc).strftime("%Y-%m-%d")`). -/
def sendNotification (env : Env) (db : DB) (p : Patient) (title body ntype : String)
    (ruleId : Option Nat) (now : Nat) : DB × String :=
  let r := channelAttempts env db p title body
  (logNotification r.1
    { patient_id := p.id, rule_id := ruleId, ntype := ntype, channel := r.2,
      title := title, message_text := body,
      status := if r.2 ≠ "failed" then "sent" else "failed",
      date := utcDay now },
   r.2)

/-- `_build_notification_content`. -/
def buildNotificationContent (r : Rule) : String × String :=
  if r.rtype = "medication" then
    let medName := r.med_name.getD "your medication"
    let dose := r.dose.getD ""
    let indication := r.indication.getD ""
    let body := "Time to take " ++ medName
    let body := if dose ≠ "" ∧ dose ≠ "unknown" then body ++ " (" ++ dose ++ ")" else body
    let body :=
      if indication ≠ "" ∧ indication ≠ "unknown" then body ++ " — " ++ indication else body
    ("Medication Reminder", body)
  else if r.rtype = "weight" then
    ("Weight Check", r.message.getD "Please log your weight.")
  else if r.rtype = "bp" then
    ("BP Check", r.message.getD "Please log your blood pressure.")
  else if r.rtype = "symptom_check" then
    ("Evening Check-in", r.message.getD "How are you feeling today?")
  else if r.rtype = "appointment" then
    ("Appointment Reminder", r.message.getD "You have an upcoming appointment.")
  else if r.rtype = "nurse_checkin" then
    ("Nurse Check-in", r.message.getD "Nurse check-in scheduled for today.")
  else ("Sidiya Reminder", r.message.getD "You have a pending task.")

/-- One scheduled time against the current time: `abs(current_minutes -
scheduled_minutes) <= 2`, with an unparseable entry skipped
(`except ... continue`). -/
def timeWithinWindow (currentMinutes : Nat) (t : String) : Bool :=
  match parseHM t with
  | some hm => ((currentMinutes : Int) - (hm.1 * 60 + hm.2)).natAbs ≤ 2
  | none => false

/-- `_is_rule_due`: a scheduled time within 2 minutes of the current
time, then the day selector — `"daily"` fires, an explicit date list
fires on a listed day, and any other selector (including the source's
`"weekly"` branch) falls through to `return True`. -/
def isRuleDue (currentMinutes today : Nat) (times : List String) (days : DaysSel) : Bool :=
  let timeMatch := times.any (timeWithinWindow currentMinutes)
  if !timeMatch then false
  else
    match days with
    | DaysSel.str s => if s = "daily" then true else if s = "weekly" then true else true
    | DaysSel.dates ds => ds.contains today

/-- Counters returned by `evaluate_and_send_reminders`. -/
structure SchedStats where
  evaluated : Nat
  sent : Nat
  skipped : Nat
  failed : Nat
deriving DecidableEq, Repr

/-- One rule of `evaluate_and_send_reminders`'s inner loop: count it,
check due-ness against IST time/date, skip when a notification log entry
for (patient, IST today, rule) exists, skip nurse-targeted rules,
otherwise dispatch. -/
def evalOneRule (env : Env) (now : Nat) (p : Patient) (acc : DB × SchedStats) (r : Rule) :
    DB × SchedStats :=
  let st := { acc.2 with evaluated := acc.2.evaluated + 1 }
  if !isRuleDue (istMin now) (istDay now) r.times r.days then (acc.1, st)
  else if !(getNotificationsForDate acc.1 p.id (istDay now) (some r.id)).isEmpty then
    (acc.1, { st with skipped := st.skipped + 1 })
  else
    let tb := buildNotificationContent r
    if r.target = some "nurse" then (acc.1, { st with skipped := st.skipped + 1 })
    else
      let sent := sendNotification env acc.1 p tb.1 tb.2 r.rtype (some r.id) now
      if sent.2 ≠ "failed" then (sent.1, { st with sent := st.sent + 1 })
      else (sent.1, { st with failed := st.failed + 1 })

/-- `evaluate_and_send_reminders`: every active rule of every active
patient.  The patient list is the snapshot taken at entry; each
patient's rules are read when that patient is processed. -/
def evaluateAndSendReminders (env : Env) (db : DB) (now : Nat) : DB × SchedStats :=
  (listActivePatients db).foldl
    (fun (acc : DB × SchedStats) p =>
      (getReminderRules acc.1 p.id).foldl (evalOneRule env now p) acc)
    (db, { evaluated := 0, sent := 0, skipped := 0, failed := 0 })

/-! ## Escalation engine (`escalation.py`) -/

/-- `patient.get("full_name", "Patient")`. -/
def pName (p : Patient) : String := p.full_name.getD "Patient"

/-- The effective 24-hour weight-gain threshold:
`patient.get("thresholds", {}).get("weight_gain_trigger_24h_kg", 1.0)`. -/
def effT24 (p : Patient) : Rat :=
  ((p.thresholds.map (·.weight_gain_24h)).join).getD 1

/-- The effective 7-day threshold (default `2.0`). -/
def effT7 (p : Patient) : Rat :=
  ((p.thresholds.map (·.weight_gain_7d)).join).getD 2

/-- The effective red-zone keyword list (default `[]`). -/
def effRedZone (p : Patient) : List String :=
  (p.thresholds.map (·.red_zone)).getD []

/-- `_notify_caregiver`: a direct `_send_sms` to the caregiver's phone
(no notification-log entry), skipped when no caregiver phone. -/
def notifyCaregiver (env : Env) (db : DB) (p : Patient) (message : String) : DB :=
  match p.caregiver_phone with
  | none => db
  | some ph => (sendSms env db ph ("Sidiya Alert: " ++ message)).1

/-- `_notify_nurse`: a direct `_send_sms` to the nurse's phone. -/
def notifyNurse (env : Env) (db : DB) (p : Patient) (message : String) : DB :=
  match p.nurse_phone with
  | none => db
  | some ph => (sendSms env db ph ("Sidiya Provider Alert: " ++ message)).1

def actionVerb (trigger : String) : String :=
  if trigger = "missed_weight" then "logged their weight today"
  else if trigger = "missed_medication" then "taken their medication"
  else if trigger = "missed_symptom_check" then "completed their symptom check"
  else "completed a required action"

def actionDescription (trigger : String) : String :=
  if trigger = "missed_weight" then "Missed weight log today"
  else if trigger = "missed_medication" then "Missed medication dose"
  else if trigger = "missed_symptom_check" then "Missed evening symptom check"
  else "Missed required action"

/-- The `extra` dict `_handle_missed_action` receives for missed
medications. -/
structure MedExtra where
  medication_name : String
  scheduled_time : String
deriving DecidableEq, Repr

def patientReminderText (trigger : String) (extra : Option MedExtra) : String :=
  if trigger = "missed_weight" then
    "You haven't logged your weight yet today. Please weigh yourself and log it in the app."
  else if trigger = "missed_medication" then
    let medName := (extra.map (·.medication_name)).getD "your medication"
    "Reminder: You haven't taken " ++ medName ++ " yet. Please take it now if appropriate."
  else if trigger = "missed_symptom_check" then
    "Please complete your evening symptom check-in."
  else "You have a pending health task. Please check the Sidiya app."

/-- `_create_weight_escalation`: a level-2 escalation (no `"date"` key,
no payload), then nurse and caregiver SMS.  The message's formatted
numbers are display-only and abstracted with `toString`. -/
def createWeightEscalation (env : Env) (db : DB) (p : Patient) (trigger message : String)
    (now : Nat) : DB × Nat :=
  let (db, escId) := createEscalation db p.id trigger none 2 none none now
  let db := notifyNurse env db p ("WEIGHT ALERT: " ++ pName p ++ " — " ++ message)
  let db := notifyCaregiver env db p
    ("Weight alert for " ++ pName p ++ ": " ++ message ++
      ". Please ensure they contact their care team.")
  (db, escId)

/-- The 7-day half of `check_weight_thresholds`: compare with the first
of the logs from seven IST days ago. -/
def weekSpikeCheck (env : Env) (p : Patient) (pid : String) (newWeight : Rat)
    (now : Nat) (db : DB) : DB × Option Nat :=
  let weekLogs := getVitalsForDate db pid (istDayBack now 7) (some "weight")
  match weekLogs.head? with
  | some firstLog =>
    match firstLog.value with
    | VitalValue.num weekWeight =>
      if ratSub newWeight weekWeight ≥ effT7 p then
        let r := createWeightEscalation env db p "weight_spike_7d"
          ("Weight gain of " ++ toString (ratSub newWeight weekWeight) ++
            "kg in 7 days (threshold: " ++ toString (effT7 p) ++ "kg)") now
        (r.1, some r.2)
      else (db, none)
    | _ => (db, none)
  | none => (db, none)

/-- `check_weight_thresholds`: compare the new weight with the last of
yesterday's (IST) logged weights, then with the first of the logs from
seven IST days ago; a gain meeting the patient's threshold creates a
level-2 escalation and returns.  Returns the created escalation's id. -/
def checkWeightThresholds (env : Env) (db : DB) (pid : String) (newWeight : Rat)
    (now : Nat) : DB × Option Nat :=
  match getPatient db pid with
  | none => (db, none)
  | some p =>
    let yesterdayLogs := getVitalsForDate db pid (istDayBack now 1) (some "weight")
    match yesterdayLogs.getLast? with
    | some lastLog =>
      match lastLog.value with
      | VitalValue.num yesterdayWeight =>
        if ratSub newWeight yesterdayWeight ≥ effT24 p then
          let r := createWeightEscalation env db p "weight_spike_24h"
            ("Weight gain of " ++ toString (ratSub newWeight yesterdayWeight) ++
              "kg in 24 hours (threshold: " ++ toString (effT24 p) ++ "kg)") now
          (r.1, some r.2)
        else weekSpikeCheck env p pid newWeight now db
      | _ => weekSpikeCheck env p pid newWeight now db
    | none => weekSpikeCheck env p pid newWeight now db

/-- `check_symptom_red_flags`: case-insensitive substring match of
reported symptoms against the red zone (either direction); on a match, a
level-2 `red_flag` escalation and immediate nurse and caregiver SMS. -/
def checkSymptomRedFlags (env : Env) (db : DB) (pid : String) (symptoms : List String)
    (now : Nat) : DB × Option Nat :=
  match getPatient db pid with
  | none => (db, none)
  | some p =>
    let redZone := (effRedZone p).map lowerStr
    let reported := symptoms.map lowerStr
    let matched := reported.filter (fun s =>
      redZone.any (fun rz => strContains s rz || strContains rz s))
    if matched.isEmpty then (db, none)
    else
      let (db, escId) := createEscalation db pid "red_flag" none 2 none none now
      let db := notifyNurse env db p
        ("RED FLAG: " ++ pName p ++ " reported: " ++ joinComma matched ++
          ". Immediate attention required.")
      let db := notifyCaregiver env db p
        ("Alert: " ++ pName p ++ " reported concerning symptoms: " ++ joinComma matched ++
          ". Please check on them.")
      (db, some escId)

/-- Counters of `check_missed_actions`. -/
structure EscStats where
  checked : Nat
  new_escalations : Nat
  level_ups : Nat
deriving DecidableEq, Repr

/-- `_handle_missed_action`.  The search for an existing escalation is
the first open one of the patient with this trigger and today's IST date
(and, when `extra` is given, the same medication name).  The age used for
promotion is `(_ist_now().timestamp() - created_at.timestamp()) / 60`:
`created_at` is the true UTC instant while `_ist_now().timestamp()` is
330 minutes ahead of it, so the computed age is the true age plus 330
minutes. -/
def handleMissedAction (env : Env) (db : DB) (p : Patient) (trigger : String)
    (today : Nat) (extra : Option MedExtra) (now : Nat) (st : EscStats) : DB × EscStats :=
  let opens := getOpenEscalations db p.id
  let existing := opens.find? (fun esc =>
    esc.trigger_type = trigger && esc.date = some today &&
      (match extra with
       | some ex => esc.payload_med = some ex.medication_name
       | none => true))
  match existing with
  | some esc =>
    let age : Int := ((now + istOffset : Nat) : Int) - (esc.created_at : Int)
    if esc.level = 0 ∧ age ≥ 120 then
      let db := updateEscalationLevel db esc.id 1
      let db := notifyCaregiver env db p
        (pName p ++ " hasn't " ++ actionVerb trigger ++ ". Please remind them.")
      (db, { st with level_ups := st.level_ups + 1 })
    else if esc.level = 1 ∧ age ≥ 240 then
      let db := updateEscalationLevel db esc.id 2
      let db := notifyNurse env db p
        (pName p ++ " — " ++ actionDescription trigger ++ ". No response from caregiver.")
      (db, { st with level_ups := st.level_ups + 1 })
    else (db, st)
  | none =>
    let db2 := (createEscalation db p.id trigger (some today) 0
      (extra.map (·.medication_name)) (extra.map (·.scheduled_time)) now).1
    let body := patientReminderText trigger extra
    let db3 := (sendNotification env db2 p "Reminder" body trigger none now).1
    (db3, { st with new_escalations := st.new_escalations + 1 })

/-- The consecutive-missed-weight walk: `for days_ago in range(1, 4)`,
stopping at the first IST day with a weight log. -/
def consecMissedDays (db : DB) (pid : String) (now : Nat) : Nat :=
  if !(getVitalsForDate db pid (istDayBack now 1) (some "weight")).isEmpty then 0
  else if !(getVitalsForDate db pid (istDayBack now 2) (some "weight")).isEmpty then 1
  else if !(getVitalsForDate db pid (istDayBack now 3) (some "weight")).isEmpty then 2
  else 3

/-- The missed-weight part of the per-patient body: only after noon
IST, only when today (IST) has no weight log. -/
def missedWeightStage (env : Env) (p : Patient) (now : Nat) (acc : DB × EscStats) :
    DB × EscStats :=
  if istMin now ≥ 720 then
    if (getVitalsForDate acc.1 p.id (istDay now) (some "weight")).isEmpty then
      handleMissedAction env acc.1 p "missed_weight" (istDay now) none now acc.2
    else acc
  else acc

/-- One scheduled time of one medication rule: past the grace window and
with no matching acknowledgement today, a missed-medication action. -/
def missedMedTime (env : Env) (p : Patient) (now : Nat) (rule : Rule)
    (acc : DB × EscStats) (scheduledTime : String) : DB × EscStats :=
  let afterMinutes :=
    match rule.escalation with
    | some cfg => cfg.after_minutes.getD 60
    | none => 60
  match parseHM scheduledTime with
  | none => acc
  | some hm =>
    if istMin now < hm.1 * 60 + hm.2 + afterMinutes then acc
    else
      let medName := rule.med_name.getD ""
      let medLogs := getMedicationLogsForDate acc.1 p.id (istDay now)
      if medLogs.any (fun ml =>
          ml.medication_name = medName && ml.scheduled_time = scheduledTime) then acc
      else
        handleMissedAction env acc.1 p "missed_medication" (istDay now)
          (some { medication_name := medName, scheduled_time := scheduledTime }) now acc.2

def missedMedRule (env : Env) (p : Patient) (now : Nat) (acc : DB × EscStats)
    (rule : Rule) : DB × EscStats :=
  if rule.rtype ≠ "medication" then acc
  else rule.times.foldl (missedMedTime env p now rule) acc

def missedMedStage (env : Env) (p : Patient) (now : Nat) (acc : DB × EscStats) :
    DB × EscStats :=
  (getReminderRules acc.1 p.id).foldl (missedMedRule env p now) acc

/-- The consecutive-missed-weight check: three missed IST days and no
open `consecutive_missed_weight` escalation yet. -/
def consecStage (env : Env) (p : Patient) (now : Nat) (acc : DB × EscStats) :
    DB × EscStats :=
  let missedDays := consecMissedDays acc.1 p.id now
  if missedDays ≥ 3 then
    if (getOpenEscalations acc.1 p.id).any
        (fun e => e.trigger_type = "consecutive_missed_weight") then acc
    else
      let r := createEscalation acc.1 p.id "consecutive_missed_weight" none 2 none none
        now
      let db := notifyNurse env r.1 p
        ("ALERT: " ++ pName p ++ " has not logged weight for " ++ toString missedDays ++
          " consecutive days.")
      (db, { acc.2 with new_escalations := acc.2.new_escalations + 1 })
  else acc

/-- The per-patient body of `check_missed_actions`: missed weight after
noon IST, missed medications past each scheduled time's grace window,
then the consecutive-missed-weight check. -/
def checkPatientMissed (env : Env) (p : Patient) (now : Nat) (acc : DB × EscStats) :
    DB × EscStats :=
  consecStage env p now (missedMedStage env p now (missedWeightStage env p now
    (acc.1, { acc.2 with checked := acc.2.checked + 1 })))

/-- `check_missed_actions`: every active patient (snapshot at entry). -/
def checkMissedActions (env : Env) (db : DB) (now : Nat) : DB × EscStats :=
  (listActivePatients db).foldl
    (fun acc p => checkPatientMissed env p now acc)
    (db, { checked := 0, new_escalations := 0, level_ups := 0 })

/-- `resolve_escalations_for_action`: resolve (reason `"patient_action"`)
the patient's open escalations whose trigger maps to the action type;
for medications only those with the same payload medication name.
`extra` is the `{"medication_name": ...}` dict. -/
def resolveEscalationsForAction (db : DB) (pid action : String) (extra : Option String)
    (now : Nat) : DB × Nat :=
  let triggerTypes :=
    if action = "weight" then ["missed_weight", "consecutive_missed_weight"]
    else if action = "medication" then ["missed_medication"]
    else if action = "symptom_check" then ["missed_symptom_check"]
    else []
  if triggerTypes.isEmpty then (db, 0)
  else
    (getOpenEscalations db pid).foldl
      (fun (acc : DB × Nat) esc =>
        if triggerTypes.contains esc.trigger_type then
          if action = "medication" ∧ extra.isSome ∧ esc.payload_med ≠ extra then acc
          else (resolveEscalationById acc.1 esc.id "patient_action" now, acc.2 + 1)
        else acc)
      (db, 0)

/-! ## Patient-action and operator endpoints (`main.py`) -/

/-- `log_patient_vital` (`POST /api/patient/{id}/vitals`): 404 (`none`)
for a missing patient; otherwise persist the vital (tagged with the UTC
date, `fdb.log_vital`), auto-resolve, then the weight / symptom-check
threshold checks. -/
def logPatientVital (env : Env) (db : DB) (pid vtype : String) (value : VitalValue)
    (now : Nat) : Option DB :=
  match getPatient db pid with
  | none => none
  | some _ =>
    let db := { db with
      vital_logs := db.vital_logs ++
        [{ patient_id := pid, vtype := vtype, value := value, date := utcDay now,
           logged_at := now }] }
    let db := (resolveEscalationsForAction db pid vtype none now).1
    let db :=
      if vtype = "weight" then
        match value with
        | VitalValue.num w => (checkWeightThresholds env db pid w now).1
        | _ => db
      else db
    let db :=
      if vtype = "symptom_check" then
        match value with
        | VitalValue.symptoms ss =>
          if !ss.isEmpty then (checkSymptomRedFlags env db pid ss now).1 else db
        | _ => db
      else db
    some db

/-- `acknowledge_medication` (`POST /api/patient/{id}/medications/ack`):
404 (`none`) for a missing patient; persist the log (UTC date); resolve
matching open escalations only when the dose was `"taken"`. -/
def acknowledgeMedication (_env : Env) (db : DB) (pid medName schedTime status : String)
    (skipReason : Option String) (now : Nat) : Option DB :=
  match getPatient db pid with
  | none => none
  | some _ =>
    let db := { db with
      medication_logs := db.medication_logs ++
        [{ patient_id := pid, medication_name := medName, scheduled_time := schedTime,
           status := status, skip_reason := skipReason, date := utcDay now }] }
    if status = "taken" then
      some (resolveEscalationsForAction db pid "medication" (some medName) now).1
    else some db

/-- `acknowledge_alert` (`POST /api/provider/alerts/{id}/ack`). -/
def acknowledgeAlert (db : DB) (escId : Nat) (now : Nat) : DB :=
  resolveEscalationById db escId "nurse_ack" now

/-- `resolve_alert_with_details` (`POST /api/provider/alerts/{id}/resolve`);
the clinical-context fields (`resolution_type`, `action_taken`, note) are
display-only and omitted. -/
def resolveAlertWithDetails (db : DB) (escId : Nat) (resolvedBy : String) (now : Nat) : DB :=
  resolveEscalationById db escId resolvedBy now

/-! ## Rule generation (`reminder_engine.generate_reminder_rules`)

The extraction document, with dates/datetimes already parsed: a field the
source obtains through `datetime.fromisoformat` inside `try/except` is an
`Option Nat` (minutes for a datetime, a day index for a date), `none`
covering both a missing and an unparseable value — the source skips the
item in either case. -/

structure ExtractionMed where
  medication_name : Option String
  dose : Option String
  route : Option String
  frequency : Option String
  indication : Option String
deriving DecidableEq, Repr

structure Monitoring where
  daily_weight_required : Option Bool
  bp_required : Option Bool
  symptom_check_required : Option Bool
deriving DecidableEq, Repr

structure RedFlagsCfg where
  weight_gain_trigger_24h_kg : Option Rat
  weight_gain_trigger_7d_kg : Option Rat
  yellow_zone : List String
  red_zone : List String
deriving DecidableEq, Repr

structure ChfModule where
  monitoring : Option Monitoring
  red_flags : Option RedFlagsCfg
deriving DecidableEq, Repr

structure ClinicalModules where
  chf : Option ChfModule
deriving DecidableEq, Repr

structure Appointment where
  scheduled_datetime : Option Nat
  provider_name : Option String
  appointment_type : Option String
deriving DecidableEq, Repr

structure Extraction where
  medications : List ExtractionMed
  clinical_modules : Option ClinicalModules
  appointments : List Appointment
  care_plan_start : Option Nat
deriving DecidableEq, Repr

/-- `_is_unknown`. -/
def isUnknown (s : String) : Bool :=
  s = "" || (lowerStr (stripStr s) ∈ ["unknown", "n/a", "none", ""])

/-- `extraction.get("clinical_modules", {}).get("chf", {}).get("monitoring", {})`:
any missing level yields the empty dict, i.e. `none` here. -/
def effMonitoring (e : Extraction) : Option Monitoring :=
  (e.clinical_modules.map (·.chf)).join.map (·.monitoring) |>.join

/-- The chf module's `red_flags` dict, through the same chain. -/
def effRedFlagsCfg (e : Extraction) : Option RedFlagsCfg :=
  (e.clinical_modules.map (·.chf)).join.map (·.red_flags) |>.join

/-- Counts returned by `generate_reminder_rules`. -/
structure GenCounts where
  medication : Nat
  weight : Nat
  bp : Nat
  symptom_check : Nat
  appointment : Nat
  nurse_checkin : Nat
deriving DecidableEq, Repr

/-- The medication reminder rule dict. -/
def medRuleGen (pid : String) (med : ExtractionMed) (times : List String) (i : Nat) : Rule :=
  { id := i, patient_id := pid, rtype := "medication", times := times,
    days := DaysSel.str "daily", active := true, target := none,
    escalation := some { after_minutes := some 60, notify := ["caregiver"] },
    med_name := some (med.medication_name.getD "unknown"), dose := some (med.dose.getD ""),
    indication := some (med.indication.getD ""), message := none }

/-- The daily-weight monitoring rule dict (07:30, 270-minute grace). -/
def weightRuleGen (pid : String) (i : Nat) : Rule :=
  { id := i, patient_id := pid, rtype := "weight", times := ["07:30"],
    days := DaysSel.str "daily", active := true, target := none,
    escalation := some { after_minutes := some 270, notify := ["caregiver", "nurse"] },
    med_name := none, dose := none, indication := none,
    message := some "Time to log your weight. Please weigh yourself before eating or drinking." }

/-- The blood-pressure monitoring rule dict (08:30, 480-minute grace). -/
def bpRuleGen (pid : String) (i : Nat) : Rule :=
  { id := i, patient_id := pid, rtype := "bp", times := ["08:30"],
    days := DaysSel.str "daily", active := true, target := none,
    escalation := some { after_minutes := some 480, notify := ["caregiver"] },
    med_name := none, dose := none, indication := none,
    message := some "Please log your blood pressure reading." }

/-- The evening symptom check-in rule dict (19:00, 180-minute grace). -/
def symptomRuleGen (pid : String) (i : Nat) : Rule :=
  { id := i, patient_id := pid, rtype := "symptom_check", times := ["19:00"],
    days := DaysSel.str "daily", active := true, target := none,
    escalation := some { after_minutes := some 180, notify := ["caregiver"] },
    med_name := none, dose := none, indication := none,
    message := some "Evening check-in: How are you feeling today?" }

/-- One appointment reminder rule (the offset picks the 2-days-before,
1-day-before or same-day variant). -/
def apptRuleGen (pid : String) (time : String) (day : Nat) (message : String) (i : Nat) :
    Rule :=
  { id := i, patient_id := pid, rtype := "appointment", times := [time],
    days := DaysSel.dates [day], active := true, target := none,
    escalation := none, med_name := none, dose := none, indication := none,
    message := some message }

/-- The nurse check-in rule dict (nurse-targeted, days 0, 2, 6 then
weekly from day 13 through day ~90). -/
def nurseRuleGen (pid : String) (startDay : Nat) (i : Nat) : Rule :=
  { id := i, patient_id := pid, rtype := "nurse_checkin", times := ["10:00"],
    days := DaysSel.dates ((([0, 2, 6] ++ (List.range 12).map (fun k => 13 + 7 * k)
      : List Nat)).map (fun d => startDay + d)),
    active := true, target := some "nurse", escalation := none, med_name := none,
    dose := none, indication := none,
    message := some "Nurse check-in and symptom review scheduled for today." }

/-- One iteration of the medication loop of `generate_reminder_rules`. -/
def medStage (pid : String) (acc : DB × GenCounts) (med : ExtractionMed) : DB × GenCounts :=
  let name := med.medication_name.getD "unknown"
  if isUnknown name then acc
  else
    let times := parseFrequencyToTimes (med.frequency.getD "")
    if times.isEmpty then acc
    else
      (addReminderRule acc.1 (medRuleGen pid med times),
       { acc.2 with medication := acc.2.medication + 1 })

/-- One iteration of the appointment loop of `generate_reminder_rules`. -/
def apptStage (pid : String) (acc : DB × GenCounts) (appt : Appointment) : DB × GenCounts :=
  match appt.scheduled_datetime with
  | none => acc
  | some dt =>
    let provider := appt.provider_name.getD "your doctor"
    let atype := appt.appointment_type.getD "follow-up"
    let db := addReminderRule acc.1 (apptRuleGen pid "09:00" ((dt - 2880) / 1440)
      ("Reminder: Your " ++ atype ++ " appointment with " ++ provider ++ " is in 2 days."))
    let db := addReminderRule db (apptRuleGen pid "09:00" ((dt - 1440) / 1440)
      ("Reminder: Your " ++ atype ++ " appointment with " ++ provider ++ " is tomorrow."))
    let db := addReminderRule db (apptRuleGen pid "07:00" (dt / 1440)
      ("Today: " ++ atype ++ " appointment with " ++ provider ++ ". Please be on time."))
    (db, { acc.2 with appointment := acc.2.appointment + 3 })

/-- `monitoring.get("daily_weight_required", True)` (Python truthiness on
a possibly missing dict and flag). -/
def flagWeight (e : Extraction) : Bool :=
  (((effMonitoring e).map (·.daily_weight_required)).join).getD true

/-- `monitoring.get("bp_required", True)`. -/
def flagBp (e : Extraction) : Bool :=
  (((effMonitoring e).map (·.bp_required)).join).getD true

/-- `monitoring.get("symptom_check_required", True)`. -/
def flagSymptom (e : Extraction) : Bool :=
  (((effMonitoring e).map (·.symptom_check_required)).join).getD true

/-- One flag-guarded monitoring rule of `generate_reminder_rules`
(stages 2–4). -/
def monStage (ruleGen : Nat → Rule) (flag : Bool) (countUpd : GenCounts → GenCounts)
    (acc : DB × GenCounts) : DB × GenCounts :=
  if flag then (addReminderRule acc.1 ruleGen, countUpd acc.2) else acc

/-- Stage 6: the nurse check-in rule, when a care-plan start date parses. -/
def nurseStage (pid : String) (start : Option Nat) (acc : DB × GenCounts) : DB × GenCounts :=
  match start with
  | none => acc
  | some s =>
    (addReminderRule acc.1 (nurseRuleGen pid s), { acc.2 with nurse_checkin := 1 })

/-- Stage 7: the red-flag thresholds denormalized onto the patient
document (`fdb.update_patient`). -/
def thresholdStage (pid : String) (e : Extraction) (acc : DB × GenCounts) : DB × GenCounts :=
  ({ acc.1 with
     patients := acc.1.patients.map (fun (p : Patient) =>
       if p.id = pid then
         { p with thresholds := some (
           { weight_gain_24h :=
               some ((((effRedFlagsCfg e).map (·.weight_gain_trigger_24h_kg)).join).getD 1),
             weight_gain_7d :=
               some ((((effRedFlagsCfg e).map (·.weight_gain_trigger_7d_kg)).join).getD 2),
             yellow_zone := ((effRedFlagsCfg e).map (·.yellow_zone)).getD [],
             red_zone := ((effRedFlagsCfg e).map (·.red_zone)).getD [] } : Thresholds) }
       else p) },
   acc.2)

/-- After stage 1 (the medication loop). -/
def genAccMed (db : DB) (pid : String) (e : Extraction) : DB × GenCounts :=
  e.medications.foldl (medStage pid)
    (db, { medication := 0, weight := 0, bp := 0, symptom_check := 0,
           appointment := 0, nurse_checkin := 0 })

/-- After stage 2 (daily weight monitoring). -/
def genAccW (db : DB) (pid : String) (e : Extraction) : DB × GenCounts :=
  monStage (weightRuleGen pid) (flagWeight e) (fun c => { c with weight := 1 })
    (genAccMed db pid e)

/-- After stage 3 (blood pressure monitoring). -/
def genAccB (db : DB) (pid : String) (e : Extraction) : DB × GenCounts :=
  monStage (bpRuleGen pid) (flagBp e) (fun c => { c with bp := 1 }) (genAccW db pid e)

/-- After stage 4 (evening symptom check-in). -/
def genAccS (db : DB) (pid : String) (e : Extraction) : DB × GenCounts :=
  monStage (symptomRuleGen pid) (flagSymptom e) (fun c => { c with symptom_check := 1 })
    (genAccB db pid e)

/-- After stage 5 (the appointment loop). -/
def genAccAppt (db : DB) (pid : String) (e : Extraction) : DB × GenCounts :=
  e.appointments.foldl (apptStage pid) (genAccS db pid e)

/-- `generate_reminder_rules`, the seven stages in source order: one
medication rule per recognized medication with a non-empty time set; the
weight (07:30), BP (08:30) and symptom-check (19:00) rules, each guarded
by its monitoring flag read with default `True`; three rules per
parseable appointment; the nurse check-in rule; the thresholds write. -/
def generateReminderRules (db : DB) (pid : String) (e : Extraction) : DB × GenCounts :=
  thresholdStage pid e (nurseStage pid e.care_plan_start (genAccAppt db pid e))

/-! ## The operation surface

The operations of the trigger, patient-action and operator surfaces that
create, promote or resolve escalations (claims C1 and C2 quantify over
sequences of these). -/

inductive Op where
  | logVital (pid vtype : String) (value : VitalValue) (now : Nat)
  | ackMedication (pid medName schedTime status : String) (skipReason : Option String)
      (now : Nat)
  | checkMissed (now : Nat)
  | evalReminders (now : Nat)
  | ackAlert (escId : Nat) (now : Nat)
  | resolveAlert (escId : Nat) (resolvedBy : String) (now : Nat)

/-- One external operation applied to the store (a 404 leaves the store
unchanged). -/
def applyOp (env : Env) (op : Op) (db : DB) : DB :=
  match op with
  | Op.logVital pid vtype value now => (logPatientVital env db pid vtype value now).getD db
  | Op.ackMedication pid medName schedTime status skipReason now =>
    (acknowledgeMedication env db pid medName schedTime status skipReason now).getD db
  | Op.checkMissed now => (checkMissedActions env db now).1
  | Op.evalReminders now => (evaluateAndSendReminders env db now).1
  | Op.ackAlert escId now => acknowledgeAlert db escId now
  | Op.resolveAlert escId resolvedBy now => resolveAlertWithDetails db escId resolvedBy now

def runOps (env : Env) (ops : List Op) (db : DB) : DB :=
  ops.foldl (fun db op => applyOp env op db) db

/-- Store well-formedness: escalation ids are distinct and below the id
counter, levels are in range, statuses are the two the code writes. -/
def WF (db : DB) : Prop :=
  (db.escalations.map (·.id)).Nodup ∧
  (∀ e ∈ db.escalations, e.id < db.nextId) ∧
  (∀ e ∈ db.escalations, e.level ≤ 2) ∧
  (∀ e ∈ db.escalations, e.status = "open" ∨ e.status = "resolved")

/-! ## Concrete fixtures, used by the closed instances below.

`day 10` of the epoch is an arbitrary calendar day; IST instants of that
day run from `10 * 1440 - 330 = 14070` (00:00 IST) in true epoch
minutes. -/

/-- Gateways that always succeed, Twilio configured. -/
def envAllOk : Env :=
  { fcm_ok := fun _ _ _ => true, sms_ok := fun _ _ => true, twilio_configured := true }

/-- An SMS-only active patient with caregiver and nurse phones and the
default thresholds written out explicitly. -/
def samplePatient : Patient :=
  { id := "p1", status := "active", full_name := some "Ramesh", phone := some "+911",
    caregiver_phone := some "+92", nurse_phone := some "+93", device_tokens := [],
    pref_push := false, pref_sms := true,
    thresholds := some { weight_gain_24h := some 1, weight_gain_7d := some 2,
                         yellow_zone := [], red_zone := [] } }

def emptyDB : DB :=
  { patients := [], reminder_rules := [], vital_logs := [], medication_logs := [],
    notifications := [], escalations := [], events := [], nextId := 100 }

/-- A weight of 70 logged on (IST) day 9. -/
def weightLogDay9 : VitalLog :=
  { patient_id := "p1", vtype := "weight", value := VitalValue.num 70, date := 9,
    logged_at := 13000 }

/-- The end-to-end scenario's store: the patient and yesterday's weight
log. -/
def dbScenario : DB :=
  { emptyDB with
    patients := [samplePatient]
    vital_logs := [weightLogDay9] }

/-- The end-to-end scenario's extraction: one medication, frequency
`"1-0-1"`, no clinical modules / appointments / start date. -/
def extractionScenario : Extraction :=
  { medications := [{ medication_name := some "Aspirin", dose := some "75mg",
                      route := some "oral", frequency := some "1-0-1",
                      indication := some "unknown" }],
    clinical_modules := none, appointments := [], care_plan_start := none }

/-- 10:05 IST on day 10, in true epoch minutes. -/
def t1005 : Nat := 14675

/-- 13:00 IST on day 10 (UTC and IST dates agree). -/
def t1300 : Nat := 14850

/-- 01:00 IST on day 10 (the UTC date is still day 9). -/
def t0100 : Nat := 14130

/-- 00:30 IST on day 10 (the UTC date is still day 9). -/
def t0030 : Nat := 14100

/-- A daily weight-check rule scheduled at 00:30 IST. -/
def earlyRule : Rule :=
  { id := 50, patient_id := "p1", rtype := "weight", times := ["00:30"],
    days := DaysSel.str "daily", active := true, target := none, escalation := none,
    med_name := none, dose := none, indication := none,
    message := some "Please log your weight." }

/-! ## Spec-side predicates for the claims -/

/-- The trigger types the spec says are created directly at level 2. -/
def lvl2Triggers : List String :=
  ["weight_spike_24h", "weight_spike_7d", "red_flag", "consecutive_missed_weight"]

/-- The missed-action trigger types (the ones `_handle_missed_action` and
the consecutive-missed-weight check create and that patient actions
resolve). -/
def missedTriggers : List String :=
  ["missed_weight", "missed_medication", "missed_symptom_check",
   "consecutive_missed_weight"]

/-- The spec's dedupe tuple: (patient, trigger type, date,
disambiguating medication name). -/
def escKey (e : Escalation) : String × String × Option Nat × Option String :=
  (e.patient_id, e.trigger_type, e.date, e.payload_med)

/-- At most one open escalation per `escKey` tuple, for the missed-action
trigger types. -/
def OpenUniqMissed (l : List Escalation) : Prop :=
  ∀ e1 ∈ l, ∀ e2 ∈ l, e1.status = "open" → e2.status = "open" →
    e1.trigger_type ∈ missedTriggers → escKey e1 = escKey e2 → e1.id = e2.id

/-- At most one open escalation per `escKey` tuple, for every trigger
type — the invariant exactly as claim C1 states it. -/
def OpenUniqAll (l : List Escalation) : Prop :=
  ∀ e1 ∈ l, ∀ e2 ∈ l, e1.status = "open" → e2.status = "open" →
    escKey e1 = escKey e2 → e1.id = e2.id

/-- How one operation may evolve the escalation store (claim C2's
lifecycle, at whole-operation granularity): no escalation disappears;
a surviving escalation keeps its identity fields, its level never
decreases and stays `≤ 2`, and its status moves only from `open` to
`resolved`; an escalation the operation creates stays `≤ 2` and is at
level 2 whenever its trigger is one of the direct-to-level-2 types. -/
def EscEvolves (old new : List Escalation) : Prop :=
  (∀ e ∈ old, ∃ e2 ∈ new, e2.id = e.id) ∧
  (∀ e2 ∈ new, ∀ e ∈ old, e.id = e2.id →
    e2.patient_id = e.patient_id ∧ e2.trigger_type = e.trigger_type ∧
    e2.date = e.date ∧ e2.payload_med = e.payload_med ∧
    e2.created_at = e.created_at ∧
    e.level ≤ e2.level ∧ e2.level ≤ 2 ∧
    (e2.status = e.status ∨ (e.status = "open" ∧ e2.status = "resolved"))) ∧
  (∀ e2 ∈ new, (∀ e ∈ old, e.id ≠ e2.id) →
    e2.level ≤ 2 ∧ (e2.trigger_type ∈ lvl2Triggers → e2.level = 2))

/-- How one `_handle_missed_action` invocation evolves the escalation
store: an existing escalation's level is unchanged or raised by exactly
one step (and only from level 0 or 1), and anything it creates is at
level 0. -/
def HandlerEvolves (old new : List Escalation) : Prop :=
  (∀ e ∈ old, ∃ e2 ∈ new, e2.id = e.id ∧
    (e2.level = e.level ∨ (e2.level = e.level + 1 ∧ e.level ≤ 1))) ∧
  (∀ e2 ∈ new, (∀ e ∈ old, e.id ≠ e2.id) → e2.level = 0)

/-- The pointwise map `fdb.update_escalation(id, {"level": lvl})` applies. -/
def levelBump (k lvl : Nat) (e : Escalation) : Escalation :=
  if e.id = k then { e with level := lvl } else e

/-- How one store transition behaves: well-formedness is kept, the
escalations evolve per claim C2's lifecycle, the id counter never moves
backwards, and claim C1's open-uniqueness for the missed-action triggers
is preserved. -/
def Step (db db2 : DB) : Prop :=
  WF db2 ∧ EscEvolves db.escalations db2.escalations ∧ db.nextId ≤ db2.nextId ∧
  (OpenUniqMissed db.escalations → OpenUniqMissed db2.escalations)

/-- Claim C8's day-selector clause as the spec words it: `"daily"`, or
today's date in the rule's explicit date list. -/
def daySelectorMatchesSpec (days : DaysSel) (today : Nat) : Bool :=
  match days with
  | DaysSel.str s => s = "daily"
  | DaysSel.dates ds => ds.contains today

/-- Claim C8's time clause: some scheduled time within the ±2-minute
window of the current time. -/
def TimeMatches (currentMinutes : Nat) (times : List String) : Prop :=
  ∃ t ∈ times, timeWithinWindow currentMinutes t = true

/-- The number of notification-log entries for (patient, rule, date) —
claim C3's measure of how often a rule was dispatched to a patient on a
day (the very records the scheduler's dedupe guard queries). -/
def notifCount (db : DB) (pid : String) (rid : Nat) (date : Nat) : Nat :=
  (getNotificationsForDate db pid date (some rid)).length

/-- The resolution `resolve_escalation(id, "patient_action")` writes. -/
def markPatientResolved (now : Nat) (e : Escalation) : Escalation :=
  { e with status := "resolved", resolved_by := some "patient_action",
           resolved_at := some now }

/-- The stored vital `log_patient_vital` writes for a weight (UTC-dated). -/
def weightLogRec (pid : String) (w : Rat) (now : Nat) : VitalLog :=
  { patient_id := pid, vtype := "weight", value := VitalValue.num w, date := utcDay now,
    logged_at := now }

/-- The escalation record `_create_weight_escalation` writes. -/
def weightEscRec (pid trig : String) (eid now : Nat) : Escalation :=
  { id := eid, patient_id := pid, trigger_type := trig, date := none, level := 2,
    status := "open", created_at := now, payload_med := none, payload_sched := none,
    resolved_by := none, resolved_at := none }

/-- The pointwise effect of `resolve_escalations_for_action(pid, "weight")`
on one stored escalation. -/
def resolveWeightMark (pid : String) (now : Nat) (e : Escalation) : Escalation :=
  if e.patient_id = pid ∧ e.status = "open" ∧
      (e.trigger_type = "missed_weight" ∨ e.trigger_type = "consecutive_missed_weight")
  then markPatientResolved now e else e

/-- The 24-hour spike message of `check_weight_thresholds`. -/
def gain24Message (p : Patient) (w y : Rat) : String :=
  "Weight gain of " ++ toString (ratSub w y) ++ "kg in 24 hours (threshold: " ++
    toString (effT24 p) ++ "kg)"

/-- The nurse SMS of `_create_weight_escalation` (with `_notify_nurse`'s
prefix applied). -/
def spikeNurseSms (p : Patient) (msg : String) : String :=
  "Sidiya Provider Alert: " ++ ("WEIGHT ALERT: " ++ pName p ++ " — " ++ msg)

/-- The caregiver SMS of `_create_weight_escalation` (with
`_notify_caregiver`'s prefix applied). -/
def spikeCaregiverSms (p : Patient) (msg : String) : String :=
  "Sidiya Alert: " ++ ("Weight alert for " ++ pName p ++ ": " ++ msg ++
    ". Please ensure they contact their care team.")

instance (l : List Escalation) : Decidable (OpenUniqMissed l) := by
  unfold OpenUniqMissed; infer_instance

instance (l : List Escalation) : Decidable (OpenUniqAll l) := by
  unfold OpenUniqAll; infer_instance

instance (old new : List Escalation) : Decidable (EscEvolves old new) := by
  unfold EscEvolves; infer_instance

instance (old new : List Escalation) : Decidable (HandlerEvolves old new) := by
  unfold HandlerEvolves; infer_instance

instance (db : DB) : Decidable (WF db) := by
  unfold WF; infer_instance

/-! ## Concrete scenario states -/

/-- The end-to-end scenario after rule generation. -/
def scenarioAfterGen : DB := (generateReminderRules dbScenario "p1" extractionScenario).1

/-- First engine run, 10:05 IST. -/
def scenarioRun1 : DB × EscStats := checkMissedActions envAllOk scenarioAfterGen t1005

/-- Second engine run, 10:10 IST. -/
def scenarioRun2 : DB × EscStats := checkMissedActions envAllOk scenarioRun1.1 (t1005 + 5)

/-- An open level-0 missed-weight escalation created at 10:05 IST of
day 10. -/
def escFiveMinOld : Escalation :=
  { id := 7, patient_id := "p1", trigger_type := "missed_weight", date := some 10,
    level := 0, status := "open", created_at := t1005, payload_med := none,
    payload_sched := none, resolved_by := none, resolved_at := none }

def dbFiveMin : DB := { emptyDB with patients := [samplePatient],
                                     escalations := [escFiveMinOld], nextId := 100 }

/-- `_handle_missed_action` on that escalation five (true) minutes after
its creation. -/
def handlerFiveMin : DB × EscStats :=
  handleMissedAction envAllOk dbFiveMin samplePatient "missed_weight" 10 none (t1005 + 5)
    { checked := 0, new_escalations := 0, level_ups := 0 }

/-- Two above-threshold weight logs on the same (IST = UTC) day. -/
def dbDoubleSpike : Option DB :=
  (logPatientVital envAllOk dbScenario "p1" "weight" (VitalValue.num 72) t1300).bind
    (fun d => logPatientVital envAllOk d "p1" "weight" (VitalValue.num 73) (t1300 + 5))

/-- The scheduler store with the 00:30 IST rule. -/
def dbEarlyRule : DB := { emptyDB with patients := [samplePatient],
                                       reminder_rules := [earlyRule] }

/-- The same weight rule scheduled at 13:00 IST instead. -/
def noonRule : Rule := { earlyRule with times := ["13:00"] }

def dbNoonRule : DB := { emptyDB with patients := [samplePatient],
                                      reminder_rules := [noonRule] }

/-- Two scheduler runs at 00:30 and 00:32 IST of day 10 (UTC day 9). -/
def doubleRun0030 : DB :=
  (evaluateAndSendReminders envAllOk
    (evaluateAndSendReminders envAllOk dbEarlyRule t0030).1 (t0030 + 2)).1

/-- One above-threshold weight log at 01:00 IST (UTC date still day 9). -/
def earlySpikeLog : Option DB :=
  logPatientVital envAllOk dbScenario "p1" "weight" (VitalValue.num 72) t0100

/-- An open missed-Aspirin escalation. -/
def escAspirin : Escalation :=
  { escFiveMinOld with
    id := 1
    trigger_type := "missed_medication"
    payload_med := some "Aspirin" }

/-- An open missed-Metformin escalation. -/
def escMetformin : Escalation :=
  { escAspirin with
    id := 2
    payload_med := some "Metformin" }

/-- Three open escalations: missed Aspirin, missed Metformin, missed
weight. -/
def dbThreeEscs : DB :=
  { emptyDB with
    patients := [samplePatient]
    escalations := [escAspirin, escMetformin, { escFiveMinOld with id := 3 }] }

/-! # Theorems -/

/-! ## Helper lemmas -/

/-- `ratSub` is ordinary rational subtraction. -/
theorem ratSub_eq (a b : Rat) : ratSub a b = a - b := (Rat.sub_def' a b).symm

/-- The escalation store written by `fdb.resolve_escalation`. -/
theorem resolveById_escalations (db : DB) (escId : Nat) (rb : String) (now : Nat) :
    (resolveEscalationById db escId rb now).escalations
      = db.escalations.map (fun e =>
          if e.id = escId then
            { e with status := "resolved", resolved_by := some rb,
                     resolved_at := some now }
          else e) := rfl

/-- The escalation store after a fold of per-item conditional
resolutions: every item whose id is targeted is marked resolved. -/
theorem foldResolve_escalations (now : Nat) (rb : String) (P : Escalation → Bool) :
    ∀ (l : List Escalation) (d : DB),
      (l.foldl (fun d esc =>
          if P esc then resolveEscalationById d esc.id rb now else d) d).escalations
        = d.escalations.map (fun e =>
            if (l.filter P).any (fun x => x.id = e.id) then
              { e with status := "resolved", resolved_by := some rb,
                       resolved_at := some now }
            else e) := by
  intro l
  induction l with
  | nil => intro d; simp
  | cons esc rest ih =>
    intro d
    rw [List.foldl_cons, List.filter_cons]
    by_cases hP : P esc = true
    · rw [if_pos hP, if_pos hP, ih, resolveById_escalations, List.map_map]
      apply List.map_congr_left
      intro e _
      simp only [Function.comp, List.any_cons]
      by_cases h1 : esc.id = e.id
      · by_cases h2 : ((rest.filter P).any (fun x => x.id = e.id)) = true
        · simp [h1, h2]
        · simp [h1, h2]
      · have h1n : ¬(e.id = esc.id) := fun h => h1 h.symm
        by_cases h2 : ((rest.filter P).any (fun x => x.id = e.id)) = true
        · simp [h1, h1n, h2]
        · simp [h1, h1n, h2]
    · rw [if_neg hP, if_neg hP, ih]

/-- Dropping the resolved-counter component of
`resolve_escalations_for_action`'s loop for a medication action. -/
theorem medFold_fst (name : String) (now : Nat) :
    ∀ (l : List Escalation) (d : DB) (k : Nat),
      (l.foldl (fun (acc : DB × Nat) esc =>
          if esc.trigger_type = "missed_medication" then
            if esc.payload_med = some name then
              (resolveEscalationById acc.1 esc.id "patient_action" now, acc.2 + 1)
            else acc
          else acc) (d, k)).1
      = l.foldl (fun d esc =>
          if esc.trigger_type = "missed_medication" ∧ esc.payload_med = some name then
            resolveEscalationById d esc.id "patient_action" now
          else d) d := by
  intro l
  induction l with
  | nil => intro d k; rfl
  | cons esc rest ih =>
    intro d k
    by_cases h1 : esc.trigger_type = "missed_medication"
    · by_cases h2 : esc.payload_med = some name
      · simp [h1, h2, ih]
      · simp [h1, h2, ih]
    · simp [h1, ih]

/-- The full effect of `resolve_escalations_for_action(pid, "medication",
extra)` on the escalation store. -/
theorem resolveMed_escalations (db : DB) (pid name : String) (now : Nat)
    (hn : (db.escalations.map (fun e => e.id)).Nodup) :
    (resolveEscalationsForAction db pid "medication" (some name) now).1.escalations =
      db.escalations.map (fun e =>
        if e.patient_id = pid ∧ e.status = "open" ∧
            e.trigger_type = "missed_medication" ∧ e.payload_med = some name
        then markPatientResolved now e else e) := by
  have hred : (resolveEscalationsForAction db pid "medication" (some name) now) =
      (getOpenEscalations db pid).foldl
        (fun (acc : DB × Nat) esc =>
          if esc.trigger_type = "missed_medication" then
            if esc.payload_med = some name then
              (resolveEscalationById acc.1 esc.id "patient_action" now, acc.2 + 1)
            else acc
          else acc)
        (db, 0) := by
    simp only [resolveEscalationsForAction]
    norm_num [show ("medication" : String) ≠ "weight" by decide]
  rw [hred, medFold_fst]
  have hstep : (fun (d : DB) (esc : Escalation) =>
      if esc.trigger_type = "missed_medication" ∧ esc.payload_med = some name then
        resolveEscalationById d esc.id "patient_action" now
      else d) = (fun (d : DB) (esc : Escalation) =>
      if (decide (esc.trigger_type = "missed_medication") &&
          decide (esc.payload_med = some name) : Bool) then
        resolveEscalationById d esc.id "patient_action" now
      else d) := by
    funext d esc
    by_cases h1 : esc.trigger_type = "missed_medication" <;>
      by_cases h2 : esc.payload_med = some name <;> simp [h1, h2]
  rw [hstep, foldResolve_escalations]
  apply List.map_congr_left
  intro e he
  by_cases hcond : e.patient_id = pid ∧ e.status = "open" ∧
      e.trigger_type = "missed_medication" ∧ e.payload_med = some name
  · obtain ⟨hc1, hc2, hc3, hc4⟩ := hcond
    have hmem : e ∈ ((getOpenEscalations db pid).filter (fun esc =>
        decide (esc.trigger_type = "missed_medication") &&
        decide (esc.payload_med = some name))) := by
      rw [List.mem_filter]
      refine ⟨?_, by simp [hc3, hc4]⟩
      rw [getOpenEscalations, List.mem_filter]
      exact ⟨he, by simp [hc1, hc2]⟩
    have hany : (((getOpenEscalations db pid).filter (fun esc =>
        decide (esc.trigger_type = "missed_medication") &&
        decide (esc.payload_med = some name))).any (fun x => x.id = e.id)) = true := by
      rw [List.any_eq_true]
      exact ⟨e, hmem, by simp⟩
    simp only [hany, if_true, hc1, hc2, hc3, hc4, markPatientResolved]
    simp
  · have hany : (((getOpenEscalations db pid).filter (fun esc =>
        decide (esc.trigger_type = "missed_medication") &&
        decide (esc.payload_med = some name))).any (fun x => x.id = e.id)) = false := by
      rw [Bool.eq_false_iff]
      intro hx
      rw [List.any_eq_true] at hx
      obtain ⟨x, hxmem, hxid⟩ := hx
      rw [List.mem_filter] at hxmem
      obtain ⟨hxopen, hxP⟩ := hxmem
      rw [getOpenEscalations, List.mem_filter] at hxopen
      obtain ⟨hxdb, hxflags⟩ := hxopen
      have hxe : x = e := by
        refine List.inj_on_of_nodup_map hn hxdb he ?_
        simpa using hxid
      apply hcond
      subst hxe
      simp only [Bool.and_eq_true, decide_eq_true_eq] at hxflags hxP
      exact ⟨hxflags.2, hxflags.1, hxP.1, hxP.2⟩
    simp [hany, hcond]

/-- C7: `_parse_frequency_to_times` applies the cascade in order — exact
table lookup (canonical strings return exactly the documented time set;
`"SOS"`/`"PRN"`/`"STAT"` and case/whitespace variants return the empty
set), embedded dash-pattern extraction, substring keyword match, and the
single default morning time `08:00` for an unrecognized non-empty string
as well as for an empty/`"unknown"` one — and, being a total function, it
never throws. -/
theorem claim7_frequency_cascade :
    (∀ f, parseFrequencyToTimes f = frequencyCascadeSpec f) ∧
    freqTimeMap.all (fun kv => parseFrequencyToTimes kv.1 = kv.2) = true ∧
    parseFrequencyToTimes "SOS" = [] ∧ parseFrequencyToTimes "PRN" = [] ∧
    parseFrequencyToTimes "STAT" = [] ∧ parseFrequencyToTimes " Sos " = [] ∧
    parseFrequencyToTimes "Prn" = [] ∧ parseFrequencyToTimes "stat " = [] ∧
    parseFrequencyToTimes "" = ["08:00"] ∧
    parseFrequencyToTimes "unknown" = ["08:00"] ∧
    (∀ f, Unrecognized f → parseFrequencyToTimes f = ["08:00"]) := by
  refine ⟨?_, by decide, by decide, by decide, by decide, by decide, by decide, by decide,
    by decide, by decide, ?_⟩
  · intro f
    unfold parseFrequencyToTimes frequencyCascadeSpec specStageExact specStageDash
      specStageKeyword specDefaultTimes
    cases h1 : freqLookup (lowerStr (stripStr f)) with
    | some ts => simp [h1]
    | none =>
      cases h2 : regexScan none (lowerStr (stripStr f)).data with
      | none =>
        cases h3 : (freqTimeMap.find? (fun kv =>
            strContains (lowerStr (stripStr f)) kv.1 && !kv.2.isEmpty)) with
        | some kv => simp [h1, h2, h3]
        | none => simp [h1, h2, h3, ite_self]
      | some pat =>
        cases h4 : freqLookup pat with
        | some ts => simp [h1, h2, h4]
        | none =>
          cases h3 : (freqTimeMap.find? (fun kv =>
              strContains (lowerStr (stripStr f)) kv.1 && !kv.2.isEmpty)) with
          | some kv => simp [h1, h2, h4, h3]
          | none => simp [h1, h2, h4, h3, ite_self]
  · intro f hf
    obtain ⟨h1, h2, h3⟩ := hf
    unfold specStageExact at h1
    unfold specStageDash at h2
    unfold specStageKeyword at h3
    have h3f : (freqTimeMap.find? (fun kv =>
        strContains (lowerStr (stripStr f)) kv.1 && !kv.2.isEmpty)) = none :=
      Option.map_eq_none'.mp h3
    simp only [parseFrequencyToTimes, h1]
    cases h2r : regexScan none (lowerStr (stripStr f)).data with
    | none => simp [h2r, h3f]
    | some pat =>
      have hp : freqLookup pat = none := by rw [h2r] at h2; simpa using h2
      simp [h2r, hp, h3f]

/-- C8 (counterexample): the claimed biconditional fails for a rule whose
day selector is the string `"weekly"`: `_is_rule_due` reports the rule
due (its fall-through returns `True` for any selector that is neither
`"daily"` nor a date list), although the spec's day-selector clause (a)
does not hold. -/
theorem claim8_counterexample :
    isRuleDue 600 5 ["10:01"] (DaysSel.str "weekly") = true ∧
    daySelectorMatchesSpec (DaysSel.str "weekly") 5 = false := by decide

/-- C8 (amended): for a rule whose day selector is `"daily"` or an
explicit date list, `_is_rule_due` holds iff the selector matches today
and some scheduled time is within ±2 minutes of the current time; any
other selector value (the source's unfinished `"weekly"`, for instance)
is treated as matching every day. -/
theorem claim8_amended_due :
    (∀ cur today times,
      isRuleDue cur today times (DaysSel.str "daily") = true ↔ TimeMatches cur times) ∧
    (∀ cur today times ds,
      isRuleDue cur today times (DaysSel.dates ds) = true ↔
        (TimeMatches cur times ∧ today ∈ ds)) := by
  have key : ∀ cur (times : List String),
      times.any (timeWithinWindow cur) = true ↔ TimeMatches cur times := by
    intro cur times
    rw [TimeMatches, List.any_eq_true]
  constructor
  · intro cur today times
    rw [← key]
    simp only [isRuleDue]
    cases h : times.any (timeWithinWindow cur) <;> simp [h]
  · intro cur today times ds
    rw [← key]
    simp only [isRuleDue]
    cases h : times.any (timeWithinWindow cur) <;> simp [h, List.elem_iff]

/-- C8 (witness for the amended statement): a concrete date-list rule due
at a matching time on a listed day. -/
theorem claim8_amended_witness :
    isRuleDue 600 7 ["10:01"] (DaysSel.dates [7]) = true :=
  (claim8_amended_due.2 600 7 ["10:01"] [7]).mpr ⟨⟨"10:01", by decide, by decide⟩, by decide⟩

/-- C4: the end-to-end scenario.  From the `"1-0-1"` medication rule
(scheduled 08:00 and 21:00, 60-minute grace), with no medication log, a
first `check_missed_actions` run at 10:05 IST creates exactly one
level-0 `missed_medication` escalation for Aspirin dated today (and
re-reminds the patient); the next run at 10:10 IST promotes it to level
1 and sends the caregiver SMS. -/
theorem claim4_end_to_end :
    ((scenarioAfterGen.reminder_rules.filter (fun r => r.rtype = "medication")).map
        (fun r => (r.times, r.escalation)) =
      [(["08:00", "21:00"],
        some { after_minutes := some 60, notify := ["caregiver"] })]) ∧
    (scenarioRun1.1.escalations.map (fun e =>
        (e.trigger_type, e.level, e.payload_med, e.date)) =
      [("missed_medication", 0, some "Aspirin", some 10)]) ∧
    scenarioRun1.2.new_escalations = 1 ∧
    Event.sms "+911"
        "Sidiya: Reminder: You haven't taken Aspirin yet. Please take it now if appropriate."
      ∈ scenarioRun1.1.events ∧
    (scenarioRun2.1.escalations.map (fun e => (e.trigger_type, e.level)) =
      [("missed_medication", 1)]) ∧
    scenarioRun2.2.level_ups = 1 ∧
    Event.sms "+92" "Sidiya Alert: Ramesh hasn't taken their medication. Please remind them."
      ∈ scenarioRun2.1.events := by decide

/-- C5 (code bug): `_handle_missed_action` promotes an open level-0
escalation that is only five minutes old.  The source computes the age as
`_ist_now().timestamp() - created_at.timestamp()`, and `_ist_now()` is a
UTC-tagged datetime whose clock was shifted forward 5 h 30 min, so its
timestamp is 330 minutes ahead of the true epoch time while `created_at`
(written by `fdb.create_escalation` as `datetime.now(timezone.utc)`) is
the true epoch time: every age is inflated by 330 minutes and both the
120- and the 240-minute promotion thresholds are passed immediately. -/
theorem claim5_code_bug :
    (t1005 + 5) - escFiveMinOld.created_at < 120 ∧
    handlerFiveMin.1.escalations.map (fun e => e.level) = [1] ∧
    handlerFiveMin.2.level_ups = 1 := by decide

/-- C1 (counterexample): the immediate threshold path creates
unconditionally, so two same-day above-threshold weight logs leave two
open `weight_spike_24h` escalations with the same (patient, trigger,
date, disambiguator) tuple — the claimed invariant `OpenUniqAll` is
false in a reachable state. -/
theorem claim1_counterexample :
    (dbDoubleSpike.map (fun d =>
      (d.escalations.filter (fun e =>
          e.status = "open" && e.trigger_type = "weight_spike_24h")).map
        (fun e => (escKey e, e.id)))) =
      some [(("p1", "weight_spike_24h", none, none), 100),
            (("p1", "weight_spike_24h", none, none), 101)] ∧
    dbDoubleSpike.map (fun d => decide (OpenUniqAll d.escalations)) = some false :=
  ⟨rfl, by decide⟩

/-- C3 (counterexample): two `evaluate_and_send_reminders` runs at 00:30
and 00:32 IST of day 10 both dispatch the same due rule.  The
notification record is written with the UTC date (still day 9), while
the dedupe query asks for records dated with the IST day (10), so the
second run finds nothing and sends again. -/
theorem claim3_counterexample :
    istDay t0030 = 10 ∧ utcDay t0030 = 9 ∧
    (doubleRun0030.notifications.filter (fun n =>
        n.rule_id = some 50 && n.status = "sent")).length = 2 ∧
    notifCount doubleRun0030 "p1" 50 9 = 2 ∧
    notifCount doubleRun0030 "p1" 50 10 = 0 := by decide

/-- C6 (counterexample): a weight logged at 01:00 IST is date-tagged with
the UTC day — the previous IST day — so `check_weight_thresholds` reads
the just-written log back as "yesterday's last weight", compares the new
weight against itself, and creates no escalation although the gain over
the actual previous-day weight (70 → 72, threshold 1) is above
threshold. -/
theorem claim6_counterexample :
    effT24 samplePatient = 1 ∧
    ((getVitalsForDate dbScenario "p1" (istDay t0100 - 1) (some "weight")).getLast?.map
      (fun v => v.value)) = some (VitalValue.num 70) ∧
    (ratSub 72 70 ≥ effT24 samplePatient) ∧
    (earlySpikeLog.map (fun d =>
      d.escalations.filter (fun e => e.trigger_type = "weight_spike_24h"))) = some [] := by
  decide

/-- C9: acknowledging a medication dose as taken resolves, with reason
`"patient_action"`, exactly the patient's open `missed_medication`
escalations whose payload medication name equals the acknowledged name;
every other escalation — another medication's, another trigger type's,
or one already resolved — is returned unchanged (in particular still
open if it was open). -/
theorem claim9_ack_resolves_only_matching (env : Env) (db db2 : DB)
    (pid name sched : String) (skipReason : Option String) (now : Nat)
    (hn : (db.escalations.map (fun e => e.id)).Nodup)
    (h : acknowledgeMedication env db pid name sched "taken" skipReason now = some db2) :
    db2.escalations = db.escalations.map (fun e =>
      if e.patient_id = pid ∧ e.status = "open" ∧
          e.trigger_type = "missed_medication" ∧ e.payload_med = some name
      then markPatientResolved now e else e) := by
  unfold acknowledgeMedication at h
  cases hp : getPatient db pid with
  | none => rw [hp] at h; cases h
  | some p =>
    rw [hp] at h
    rw [if_pos rfl] at h
    have hdb2 := (Option.some.inj h).symm
    rw [hdb2]
    exact resolveMed_escalations _ pid name now hn

/-! Stage structure of `generate_reminder_rules`, for claim C10. -/

theorem monStage_rules (g : Nat → Rule) (flag : Bool) (u : GenCounts → GenCounts)
    (acc : DB × GenCounts) :
    (monStage g flag u acc).1.reminder_rules
      = acc.1.reminder_rules ++ (if flag then [g acc.1.nextId] else []) := by
  cases flag with
  | false => simp [monStage]
  | true => simp [monStage, addReminderRule]

theorem nurseStage_rules (pid : String) (start : Option Nat) (acc : DB × GenCounts) :
    (nurseStage pid start acc).1.reminder_rules
      = acc.1.reminder_rules ++
        (match start with
         | none => []
         | some s => [nurseRuleGen pid s acc.1.nextId]) := by
  cases start with
  | none => simp [nurseStage]
  | some s => simp [nurseStage, addReminderRule]

theorem medsFold_rules (pid : String) :
    ∀ (meds : List ExtractionMed) (acc : DB × GenCounts), ∃ added,
      (meds.foldl (medStage pid) acc).1.reminder_rules = acc.1.reminder_rules ++ added ∧
      ∀ r ∈ added, r.rtype = "medication" := by
  intro meds
  induction meds with
  | nil => intro acc; exact ⟨[], by simp, by simp⟩
  | cons med rest ih =>
    intro acc
    obtain ⟨added, hadd, hty⟩ := ih (medStage pid acc med)
    rw [List.foldl_cons, hadd]
    unfold medStage
    by_cases h1 : isUnknown (med.medication_name.getD "unknown") = true
    · exact ⟨added, by simp [h1], hty⟩
    · by_cases h2 : (parseFrequencyToTimes (med.frequency.getD "")).isEmpty = true
      · exact ⟨added, by simp [h1, h2], hty⟩
      · refine ⟨medRuleGen pid med (parseFrequencyToTimes (med.frequency.getD ""))
          acc.1.nextId :: added, ?_, ?_⟩
        · simp [h1, h2, addReminderRule]
        · intro r hr
          rcases List.mem_cons.mp hr with h | h
          · rw [h]; rfl
          · exact hty r h

theorem apptFold_rules (pid : String) :
    ∀ (appts : List Appointment) (acc : DB × GenCounts), ∃ added,
      (appts.foldl (apptStage pid) acc).1.reminder_rules = acc.1.reminder_rules ++ added ∧
      ∀ r ∈ added, r.rtype = "appointment" := by
  intro appts
  induction appts with
  | nil => intro acc; exact ⟨[], by simp, by simp⟩
  | cons appt rest ih =>
    intro acc
    obtain ⟨added, hadd, hty⟩ := ih (apptStage pid acc appt)
    rw [List.foldl_cons, hadd]
    unfold apptStage
    cases hdt : appt.scheduled_datetime with
    | none => exact ⟨added, by simp, hty⟩
    | some dt =>
      refine ⟨apptRuleGen pid "09:00" ((dt - 2880) / 1440)
          ("Reminder: Your " ++ appt.appointment_type.getD "follow-up" ++
            " appointment with " ++ appt.provider_name.getD "your doctor" ++
            " is in 2 days.") acc.1.nextId ::
        apptRuleGen pid "09:00" ((dt - 1440) / 1440)
          ("Reminder: Your " ++ appt.appointment_type.getD "follow-up" ++
            " appointment with " ++ appt.provider_name.getD "your doctor" ++
            " is tomorrow.") (acc.1.nextId + 1) ::
        apptRuleGen pid "07:00" (dt / 1440)
          ("Today: " ++ appt.appointment_type.getD "follow-up" ++ " appointment with " ++
            appt.provider_name.getD "your doctor" ++ ". Please be on time.")
          (acc.1.nextId + 1 + 1) :: added, by simp [addReminderRule], ?_⟩
      intro r hr
      rcases List.mem_cons.mp hr with h | hr
      · rw [h]; rfl
      rcases List.mem_cons.mp hr with h | hr
      · rw [h]; rfl
      rcases List.mem_cons.mp hr with h | hr
      · rw [h]; rfl
      · exact hty r hr

/-- The type-`p` rules of the store `generate_reminder_rules` leaves
behind, for a `p` that matches none of the medication, appointment or
nurse-check-in rules: the prior type-`p` rules, then whatever of the
three flag-guarded monitoring rules `p` selects. -/
theorem genRules_filter (db : DB) (pid : String) (e : Extraction) (p : Rule → Bool)
    (hmed : ∀ r : Rule, r.rtype = "medication" → p r = false)
    (happt : ∀ r : Rule, r.rtype = "appointment" → p r = false)
    (hnurse : ∀ r : Rule, r.rtype = "nurse_checkin" → p r = false) :
    (generateReminderRules db pid e).1.reminder_rules.filter p
      = db.reminder_rules.filter p
        ++ ((if flagWeight e then [weightRuleGen pid (genAccMed db pid e).1.nextId]
             else []).filter p)
        ++ ((if flagBp e then [bpRuleGen pid (genAccW db pid e).1.nextId]
             else []).filter p)
        ++ ((if flagSymptom e then [symptomRuleGen pid (genAccB db pid e).1.nextId]
             else []).filter p) := by
  obtain ⟨ma, hma, hmaT⟩ := medsFold_rules pid e.medications
    (db, { medication := 0, weight := 0, bp := 0, symptom_check := 0,
           appointment := 0, nurse_checkin := 0 })
  obtain ⟨aa, haa, haaT⟩ := apptFold_rules pid e.appointments (genAccS db pid e)
  have hfma : ma.filter p = [] :=
    List.filter_eq_nil_iff.mpr (fun r hr => by simp [hmed r (hmaT r hr)])
  have hfaa : aa.filter p = [] :=
    List.filter_eq_nil_iff.mpr (fun r hr => by simp [happt r (haaT r hr)])
  have hnr : ((match e.care_plan_start with
      | none => ([] : List Rule)
      | some s => [nurseRuleGen pid s (genAccAppt db pid e).1.nextId]).filter p) = [] := by
    cases e.care_plan_start with
    | none => rfl
    | some s => simp [hnurse (nurseRuleGen pid s (genAccAppt db pid e).1.nextId) rfl]
  have hthresh : ∀ acc : DB × GenCounts,
      (thresholdStage pid e acc).1.reminder_rules = acc.1.reminder_rules := fun _ => rfl
  rw [generateReminderRules, hthresh, nurseStage_rules, List.filter_append, hnr,
    List.append_nil, genAccAppt, haa, List.filter_append, hfaa, List.append_nil,
    genAccS, monStage_rules, List.filter_append, genAccB, monStage_rules,
    List.filter_append, genAccW, monStage_rules, List.filter_append, genAccMed, hma,
    List.filter_append, hfma, List.append_nil]

/-! Dispatch bookkeeping, for claim C3. -/

/-- `_send_sms` touches only the event log. -/
theorem sendSms_eventsOnly (env : Env) (db : DB) (ph b : String) :
    ∃ ev, (sendSms env db ph b).1 = { db with events := ev } := by
  unfold sendSms
  by_cases h1 : env.twilio_configured
  · by_cases h2 : ph = ""
    · exact ⟨db.events, by simp [h1, h2]⟩
    · exact ⟨db.events ++ [Event.sms ph b], by simp [h1, h2]⟩
  · exact ⟨db.events, by simp [h1]⟩

/-- `_send_fcm` touches only the event log. -/
theorem sendFcm_eventsOnly (env : Env) (db : DB) (tks : List String) (t b : String) :
    ∃ ev, (sendFcm env db tks t b).1 = { db with events := ev } := by
  unfold sendFcm
  by_cases h1 : tks.isEmpty
  · exact ⟨db.events, by simp [h1]⟩
  · exact ⟨db.events ++ [Event.fcm tks t b], by simp [h1]⟩

/-- The push attempt touches only the event log. -/
theorem pushStep_eventsOnly (env : Env) (db : DB) (p : Patient) (t b : String) :
    ∃ ev, (pushStep env db p t b).1 = { db with events := ev } := by
  unfold pushStep
  by_cases h1 : p.pref_push ∧ ¬p.device_tokens.isEmpty
  · rw [if_pos h1]
    obtain ⟨ev, hf⟩ := sendFcm_eventsOnly env db p.device_tokens t b
    exact ⟨ev, hf⟩
  · rw [if_neg h1]
    exact ⟨db.events, rfl⟩

/-- The SMS fallback touches only the event log. -/
theorem smsStep_eventsOnly (env : Env) (p : Patient) (b : String) (acc : DB × String) :
    ∃ ev, (smsStep env p b acc).1 = { acc.1 with events := ev } := by
  unfold smsStep
  by_cases h1 : acc.2 = "failed" ∧ p.pref_sms ∧ p.phone.isSome
  · rw [if_pos h1]
    obtain ⟨ev, hs⟩ := sendSms_eventsOnly env acc.1 (p.phone.getD "") ("Sidiya: " ++ b)
    exact ⟨ev, hs⟩
  · rw [if_neg h1]
    exact ⟨acc.1.events, rfl⟩

/-- The channel attempts of `send_notification` touch only the event
log. -/
theorem channelAttempts_eventsOnly (env : Env) (db : DB) (p : Patient) (t b : String) :
    ∃ ev, (channelAttempts env db p t b).1 = { db with events := ev } := by
  unfold channelAttempts
  obtain ⟨ev2, h2⟩ := smsStep_eventsOnly env p b (pushStep env db p t b)
  obtain ⟨ev1, h1⟩ := pushStep_eventsOnly env db p t b
  exact ⟨ev2, by rw [h2, h1]⟩

/-- `send_notification` appends exactly one notification record, keyed
by the patient, the rule and the UTC date, and otherwise touches only
the event log. -/
theorem sendNotification_db (env : Env) (db : DB) (p : Patient) (t b nt : String)
    (ruleId : Option Nat) (now : Nat) :
    ∃ (rec : NotificationRecord) (ev : List Event),
      (sendNotification env db p t b nt ruleId now).1
        = { db with notifications := db.notifications ++ [rec], events := ev } ∧
      rec.patient_id = p.id ∧ rec.rule_id = ruleId ∧ rec.date = utcDay now := by
  obtain ⟨ev, hc⟩ := channelAttempts_eventsOnly env db p t b
  refine ⟨{ patient_id := p.id, rule_id := ruleId, ntype := nt,
            channel := (channelAttempts env db p t b).2,
            title := t, message_text := b,
            status := if (channelAttempts env db p t b).2 ≠ "failed" then "sent"
                      else "failed",
            date := utcDay now }, ev, ?_, rfl, rfl, rfl⟩
  simp only [sendNotification, logNotification]
  rw [hc]

/-- One record appended: the count for any key grows by at most one, and
only when the record's key matches. -/
theorem notifCount_append (db : DB) (rec : NotificationRecord) (ev : List Event)
    (pid : String) (rid : Nat) (d : Nat) :
    notifCount { db with notifications := db.notifications ++ [rec], events := ev }
        pid rid d
      = notifCount db pid rid d +
        (if rec.patient_id = pid ∧ rec.date = d ∧ rec.rule_id = some rid then 1 else 0) := by
  unfold notifCount getNotificationsForDate
  rw [List.filter_append, List.length_append]
  by_cases h : rec.patient_id = pid ∧ rec.date = d ∧ rec.rule_id = some rid
  · obtain ⟨ha, hb, hc⟩ := h
    simp [ha, hb, hc, List.filter]
  · rw [if_neg h]
    have : ([rec].filter (fun n =>
        n.patient_id = pid && n.date = d && (n.rule_id = some rid : Bool))) = [] := by
      rw [List.filter_eq_nil_iff]
      intro a ha
      rw [List.mem_singleton] at ha
      subst ha
      intro hcontra
      simp only [Bool.and_eq_true, decide_eq_true_eq] at hcontra
      exact h ⟨hcontra.1.1, hcontra.1.2, hcontra.2⟩
    rw [this]
    rfl

/-- The per-rule scheduler step either leaves the store unchanged or,
with the due check passed, the dedupe guard empty and the rule not
nurse-targeted, dispatches exactly one `send_notification`. -/
theorem evalOneRule_db (env : Env) (now : Nat) (p : Patient) (acc : DB × SchedStats)
    (r : Rule) :
    (evalOneRule env now p acc r).1 = acc.1 ∨
    ((getNotificationsForDate acc.1 p.id (istDay now) (some r.id)).isEmpty = true ∧
      (evalOneRule env now p acc r).1
        = (sendNotification env acc.1 p (buildNotificationContent r).1
            (buildNotificationContent r).2 r.rtype (some r.id) now).1) := by
  unfold evalOneRule
  by_cases h1 : isRuleDue (istMin now) (istDay now) r.times r.days
  · by_cases h2 : (getNotificationsForDate acc.1 p.id (istDay now) (some r.id)).isEmpty
    · by_cases h3 : r.target = some "nurse"
      · left; simp [h1, h2, h3]
      · right
        refine ⟨h2, ?_⟩
        have h2f : (!(getNotificationsForDate acc.1 p.id (istDay now)
            (some r.id)).isEmpty) = false := by simp [h2]
        simp only [h1, Bool.not_true, if_false, h2f, h3]
        by_cases h4 : (sendNotification env acc.1 p (buildNotificationContent r).1
            (buildNotificationContent r).2 r.rtype (some r.id) now).2 ≠ "failed"
        · simp [h4]
        · push_neg at h4
          simp [h4]
    · left; simp [h1, h2]
  · left; simp [h1]

/-- The per-rule scheduler step moves `notifCount` for any (patient,
rule) key monotonically and never past `max count 1`, measured on the
IST day of the run: a dispatch only happens when the guard for that day
is empty, and the record it logs can only land on that day. -/
theorem evalOneRule_notifCount (env : Env) (now : Nat) (p : Patient)
    (acc : DB × SchedStats) (r : Rule) (pid : String) (rid : Nat) :
    notifCount acc.1 pid rid (istDay now)
        ≤ notifCount (evalOneRule env now p acc r).1 pid rid (istDay now) ∧
      notifCount (evalOneRule env now p acc r).1 pid rid (istDay now)
        ≤ max (notifCount acc.1 pid rid (istDay now)) 1 := by
  rcases evalOneRule_db env now p acc r with h | ⟨hguard, h⟩
  · rw [h]
    exact ⟨Nat.le_refl _, Nat.le_max_left _ _⟩
  · obtain ⟨rec, ev, hdb, hrp, hrr, hrd⟩ :=
      sendNotification_db env acc.1 p (buildNotificationContent r).1
        (buildNotificationContent r).2 r.rtype (some r.id) now
    rw [h, hdb, notifCount_append]
    by_cases h4 : rec.patient_id = pid ∧ rec.date = istDay now ∧ rec.rule_id = some rid
    · have hpid : p.id = pid := hrp.symm.trans h4.1
      have hrid : r.id = rid := Option.some.inj (hrr.symm.trans h4.2.2)
      have hc0 : notifCount acc.1 pid rid (istDay now) = 0 := by
        unfold notifCount
        rw [← hpid, ← hrid]
        rw [List.isEmpty_iff] at hguard
        rw [hguard]
        rfl
      rw [hc0, if_pos h4]
      exact ⟨Nat.zero_le _, Nat.le_refl _⟩
    · rw [if_neg h4]
      exact ⟨Nat.le_add_right _ _, by simp⟩

/-- A fold whose every step is monotone and `max·1`-bounded on a measure
is itself monotone and `max·1`-bounded. -/
theorem foldl_maxOneBound {α β : Type} (f : β → α → β) (m : β → Nat)
    (hstep : ∀ b a, m b ≤ m (f b a) ∧ m (f b a) ≤ max (m b) 1) :
    ∀ (l : List α) (b : β), m b ≤ m (l.foldl f b) ∧ m (l.foldl f b) ≤ max (m b) 1
  | [], _ => ⟨Nat.le_refl _, Nat.le_max_left _ _⟩
  | a :: l, b => by
    obtain ⟨h1, h2⟩ := hstep b a
    obtain ⟨h3, h4⟩ := foldl_maxOneBound f m hstep l (f b a)
    exact ⟨Nat.le_trans h1 h3,
      Nat.le_trans h4 (Nat.max_le.mpr ⟨h2, Nat.le_max_right _ _⟩)⟩

/-- One whole scheduler sweep moves `notifCount` for any (patient, rule)
key on the run's IST day monotonically and never past `max count 1`. -/
theorem evalReminders_notifCount (env : Env) (db : DB) (now : Nat) (pid : String)
    (rid : Nat) :
    notifCount db pid rid (istDay now)
        ≤ notifCount (evaluateAndSendReminders env db now).1 pid rid (istDay now) ∧
      notifCount (evaluateAndSendReminders env db now).1 pid rid (istDay now)
        ≤ max (notifCount db pid rid (istDay now)) 1 := by
  unfold evaluateAndSendReminders
  exact foldl_maxOneBound _ (fun acc => notifCount acc.1 pid rid (istDay now))
    (fun acc p => foldl_maxOneBound _ (fun acc2 => notifCount acc2.1 pid rid (istDay now))
      (fun b a => evalOneRule_notifCount env now p b a pid rid)
      (getReminderRules acc.1 p.id) acc)
    (listActivePatients db)
    (db, { evaluated := 0, sent := 0, skipped := 0, failed := 0 })

/-- C3 (amended): two scheduler sweeps at times `t1` and `t2` on the same
IST day, both in the window where the IST date equals the UTC date (05:30
IST through midnight IST) so the dedupe query and the dispatch log agree
on the date, together send at most one notification per (patient, rule)
key: the count on that day never decreases, never exceeds `max count 1`,
starts-at-zero implies at most one afterwards, and a count the first
sweep already made positive is left exactly unchanged by the second. -/
theorem claim3_amended_dedupe (env : Env) (db : DB) (t1 t2 : Nat) (pid : String)
    (rid : Nat) ( _h1 : utcDay t1 = istDay t1) ( _h2 : utcDay t2 = istDay t2)
    (hsame : istDay t2 = istDay t1) :
    notifCount db pid rid (istDay t1)
        ≤ notifCount (evaluateAndSendReminders env
            (evaluateAndSendReminders env db t1).1 t2).1 pid rid (istDay t1) ∧
      notifCount (evaluateAndSendReminders env
          (evaluateAndSendReminders env db t1).1 t2).1 pid rid (istDay t1)
        ≤ max (notifCount db pid rid (istDay t1)) 1 ∧
      (notifCount db pid rid (istDay t1) = 0 →
        notifCount (evaluateAndSendReminders env
            (evaluateAndSendReminders env db t1).1 t2).1 pid rid (istDay t1) ≤ 1) ∧
      (1 ≤ notifCount (evaluateAndSendReminders env db t1).1 pid rid (istDay t1) →
        notifCount (evaluateAndSendReminders env
            (evaluateAndSendReminders env db t1).1 t2).1 pid rid (istDay t1)
          = notifCount (evaluateAndSendReminders env db t1).1 pid rid (istDay t1)) := by
  obtain ⟨a1, b1⟩ := evalReminders_notifCount env db t1 pid rid
  obtain ⟨a2, b2⟩ := evalReminders_notifCount env (evaluateAndSendReminders env db t1).1
    t2 pid rid
  rw [hsame] at a2 b2
  have hbound : notifCount (evaluateAndSendReminders env
      (evaluateAndSendReminders env db t1).1 t2).1 pid rid (istDay t1)
      ≤ max (notifCount db pid rid (istDay t1)) 1 :=
    Nat.le_trans b2 (Nat.max_le.mpr ⟨b1, Nat.le_max_right _ _⟩)
  refine ⟨Nat.le_trans a1 a2, hbound, ?_, ?_⟩
  · intro hc0
    rw [hc0] at hbound
    simpa using hbound
  · intro hc1
    exact Nat.le_antisymm (Nat.le_trans b2 (by rw [Nat.max_eq_left hc1])) a2

/-! Weight-threshold machinery, for claim C6. -/

/-- `_notify_nurse` touches only the event log. -/
theorem notifyNurse_eventsOnly (env : Env) (db : DB) (p : Patient) (m : String) :
    ∃ ev, notifyNurse env db p m = { db with events := ev } := by
  unfold notifyNurse
  cases h : p.nurse_phone with
  | none => exact ⟨db.events, rfl⟩
  | some ph => exact sendSms_eventsOnly env db ph ("Sidiya Provider Alert: " ++ m)

/-- `_notify_caregiver` touches only the event log. -/
theorem notifyCaregiver_eventsOnly (env : Env) (db : DB) (p : Patient) (m : String) :
    ∃ ev, notifyCaregiver env db p m = { db with events := ev } := by
  unfold notifyCaregiver
  cases h : p.caregiver_phone with
  | none => exact ⟨db.events, rfl⟩
  | some ph => exact sendSms_eventsOnly env db ph ("Sidiya Alert: " ++ m)

theorem notifyNurse_escalations (env : Env) (db : DB) (p : Patient) (m : String) :
    (notifyNurse env db p m).escalations = db.escalations := by
  obtain ⟨ev, h⟩ := notifyNurse_eventsOnly env db p m
  rw [h]

theorem notifyCaregiver_escalations (env : Env) (db : DB) (p : Patient) (m : String) :
    (notifyCaregiver env db p m).escalations = db.escalations := by
  obtain ⟨ev, h⟩ := notifyCaregiver_eventsOnly env db p m
  rw [h]

/-- `resolve_escalations_for_action` touches only the escalation store. -/
theorem resolveAction_frame (db : DB) (pid a : String) (extra : Option String)
    (now : Nat) :
    ∃ e2, (resolveEscalationsForAction db pid a extra now).1
      = { db with escalations := e2 } := by
  have hfold : ∀ (tts : List String) (l : List Escalation) (d : DB) (k : Nat),
      ∃ e2, (l.foldl (fun (acc : DB × Nat) esc =>
          if tts.contains esc.trigger_type then
            if a = "medication" ∧ extra.isSome ∧ esc.payload_med ≠ extra then acc
            else (resolveEscalationById acc.1 esc.id "patient_action" now, acc.2 + 1)
          else acc) (d, k)).1 = { d with escalations := e2 } := by
    intro tts l
    induction l with
    | nil => intro d k; exact ⟨d.escalations, rfl⟩
    | cons esc rest ih =>
      intro d k
      by_cases h1 : tts.contains esc.trigger_type
      · by_cases h2 : a = "medication" ∧ extra.isSome ∧ esc.payload_med ≠ extra
        · simp only [List.foldl_cons, if_pos h1, if_pos h2]
          exact ih d k
        · obtain ⟨e2, he⟩ := ih (resolveEscalationById d esc.id "patient_action" now)
            (k + 1)
          refine ⟨e2, ?_⟩
          simp only [List.foldl_cons, if_pos h1, if_neg h2]
          rw [he]
          rfl
      · simp only [List.foldl_cons, if_neg h1]
        exact ih d k
  simp only [resolveEscalationsForAction]
  by_cases h : (if a = "weight" then ["missed_weight", "consecutive_missed_weight"]
      else if a = "medication" then ["missed_medication"]
      else if a = "symptom_check" then ["missed_symptom_check"]
      else ([] : List String)).isEmpty
  · rw [if_pos h]
    exact ⟨db.escalations, rfl⟩
  · rw [if_neg h]
    exact hfold _ (getOpenEscalations db pid) db 0

/-- Dropping the resolved-counter component of
`resolve_escalations_for_action`'s loop for a weight action. -/
theorem weightFold_fst (now : Nat) :
    ∀ (l : List Escalation) (d : DB) (k : Nat),
      (l.foldl (fun (acc : DB × Nat) esc =>
          if (["missed_weight", "consecutive_missed_weight"] : List String).contains
              esc.trigger_type then
            (resolveEscalationById acc.1 esc.id "patient_action" now, acc.2 + 1)
          else acc) (d, k)).1
      = l.foldl (fun d esc =>
          if (["missed_weight", "consecutive_missed_weight"] : List String).contains
              esc.trigger_type then
            resolveEscalationById d esc.id "patient_action" now
          else d) d := by
  intro l
  induction l with
  | nil => intro d k; rfl
  | cons esc rest ih =>
    intro d k
    by_cases h1 : (["missed_weight", "consecutive_missed_weight"] : List String).contains
        esc.trigger_type
    · rw [List.foldl_cons, List.foldl_cons, if_pos h1, if_pos h1]
      exact ih _ _
    · rw [List.foldl_cons, List.foldl_cons, if_neg h1, if_neg h1]
      exact ih _ _

/-- The full effect of `resolve_escalations_for_action(pid, "weight")` on
the escalation store: pointwise `resolveWeightMark`. -/
theorem resolveWeight_escalations (db : DB) (pid : String) (now : Nat)
    (hn : (db.escalations.map (fun e => e.id)).Nodup) :
    (resolveEscalationsForAction db pid "weight" none now).1.escalations =
      db.escalations.map (resolveWeightMark pid now) := by
  have hred : resolveEscalationsForAction db pid "weight" none now =
      (getOpenEscalations db pid).foldl
        (fun (acc : DB × Nat) esc =>
          if (["missed_weight", "consecutive_missed_weight"] : List String).contains
              esc.trigger_type then
            (resolveEscalationById acc.1 esc.id "patient_action" now, acc.2 + 1)
          else acc)
        (db, 0) := by
    simp only [resolveEscalationsForAction]
    norm_num [show ("weight" : String) ≠ "medication" by decide]
  rw [hred, weightFold_fst, foldResolve_escalations]
  apply List.map_congr_left
  intro e he
  simp only [resolveWeightMark]
  by_cases hcond : e.patient_id = pid ∧ e.status = "open" ∧
      (e.trigger_type = "missed_weight" ∨ e.trigger_type = "consecutive_missed_weight")
  · have hmem : e ∈ ((getOpenEscalations db pid).filter (fun esc =>
        (["missed_weight", "consecutive_missed_weight"] : List String).contains
          esc.trigger_type)) := by
      rw [List.mem_filter]
      refine ⟨?_, ?_⟩
      · rw [getOpenEscalations, List.mem_filter]
        exact ⟨he, by simp [hcond.1, hcond.2.1]⟩
      · rcases hcond.2.2 with h | h <;> simp [h]
    have hany : (((getOpenEscalations db pid).filter (fun esc =>
        (["missed_weight", "consecutive_missed_weight"] : List String).contains
          esc.trigger_type)).any (fun x => x.id = e.id)) = true := by
      rw [List.any_eq_true]
      exact ⟨e, hmem, by simp⟩
    rw [if_pos hcond]
    simp only [hany, if_true, markPatientResolved]
  · have hany : (((getOpenEscalations db pid).filter (fun esc =>
        (["missed_weight", "consecutive_missed_weight"] : List String).contains
          esc.trigger_type)).any (fun x => x.id = e.id)) = false := by
      rw [Bool.eq_false_iff]
      intro hx
      rw [List.any_eq_true] at hx
      obtain ⟨x, hxmem, hxid⟩ := hx
      rw [List.mem_filter] at hxmem
      obtain ⟨hxopen, hxP⟩ := hxmem
      rw [getOpenEscalations, List.mem_filter] at hxopen
      obtain ⟨hxdb, hxflags⟩ := hxopen
      have hxe : x = e := by
        refine List.inj_on_of_nodup_map hn hxdb he ?_
        simpa using hxid
      rw [hxe] at hxflags hxP
      apply hcond
      simp only [Bool.and_eq_true, decide_eq_true_eq] at hxflags
      have hxmem2 : e.trigger_type ∈
          (["missed_weight", "consecutive_missed_weight"] : List String) :=
        List.elem_iff.mp hxP
      simp only [List.mem_cons, List.mem_singleton, List.not_mem_nil, or_false]
        at hxmem2
      exact ⟨hxflags.2, hxflags.1, hxmem2⟩
    rw [if_neg hcond]
    simp only [hany, Bool.false_eq_true, if_false]

/-- The full state effect of `resolve_escalations_for_action(pid,
"weight")`. -/
theorem resolveWeight_state (db : DB) (pid : String) (now : Nat)
    (hn : (db.escalations.map (fun e => e.id)).Nodup) :
    (resolveEscalationsForAction db pid "weight" none now).1
      = { db with escalations := db.escalations.map (resolveWeightMark pid now) } := by
  obtain ⟨e2, hre⟩ := resolveAction_frame db pid "weight" none now
  have hesc := resolveWeight_escalations db pid now hn
  rw [hre] at hesc
  rw [hre]
  have h2 : e2 = db.escalations.map (resolveWeightMark pid now) := hesc
  rw [h2]

/-- `_create_weight_escalation` appends exactly one level-2 escalation of
the given trigger. -/
theorem createWeightEsc_escalations (env : Env) (db : DB) (p : Patient)
    (trig msg : String) (now : Nat) :
    (createWeightEscalation env db p trig msg now).1.escalations
      = db.escalations ++ [weightEscRec p.id trig db.nextId now] := by
  simp only [createWeightEscalation, createEscalation]
  rw [notifyCaregiver_escalations, notifyNurse_escalations]
  rfl

/-- The full state effect of `_create_weight_escalation` when the nurse
and caregiver phones are present and Twilio is configured: the appended
escalation plus the two alert SMS events. -/
theorem createWeightEsc_state (env : Env) (db : DB) (p : Patient) (trig msg : String)
    (now : Nat) (nph cph : String)
    (hnp : p.nurse_phone = some nph) (hcp : p.caregiver_phone = some cph)
    (htw : env.twilio_configured = true) (hnph : nph ≠ "") (hcph : cph ≠ "") :
    (createWeightEscalation env db p trig msg now).1
      = { db with
          escalations := db.escalations ++ [weightEscRec p.id trig db.nextId now],
          events := db.events ++ [Event.sms nph (spikeNurseSms p msg),
                                  Event.sms cph (spikeCaregiverSms p msg)],
          nextId := db.nextId + 1 } := by
  simp only [createWeightEscalation, createEscalation, notifyNurse, notifyCaregiver,
    hnp, hcp, sendSms, htw]
  simp [hnph, hcph, spikeNurseSms, spikeCaregiverSms, weightEscRec, List.append_assoc]

theorem resolveWeightMark_trigger (pid : String) (now : Nat) (e : Escalation) :
    (resolveWeightMark pid now e).trigger_type = e.trigger_type := by
  simp only [resolveWeightMark, markPatientResolved]
  by_cases h : e.patient_id = pid ∧ e.status = "open" ∧
      (e.trigger_type = "missed_weight" ∨ e.trigger_type = "consecutive_missed_weight")
  · rw [if_pos h]
  · rw [if_neg h]

/-- Filtering after a pointwise map that preserves the predicate
preserves the count. -/
theorem length_filter_map_eq {α : Type} (f : α → α) (p : α → Bool)
    (hf : ∀ a, p (f a) = p a) :
    ∀ l : List α, ((l.map f).filter p).length = (l.filter p).length
  | [] => rfl
  | a :: l => by
    rw [List.map_cons, List.filter_cons, List.filter_cons, hf a]
    cases h : p a
    · simp [length_filter_map_eq f p hf l]
    · simp [length_filter_map_eq f p hf l]

/-- A fresh vital stored on a different date does not change a
date-keyed vitals query. -/
theorem getVitals_append_miss (db db2 : DB) (v : VitalLog) (pid : String) (d : Nat)
    (t : Option String) (h : db2.vital_logs = db.vital_logs ++ [v]) (hd : v.date ≠ d) :
    getVitalsForDate db2 pid d t = getVitalsForDate db pid d t := by
  unfold getVitalsForDate
  rw [h, List.filter_append]
  simp [hd]

/-- C6 (amended): provided the logged weight's stored UTC date differs
from the IST "yesterday" that the threshold check reads back (true for
any log between 05:30 IST and midnight IST), and yesterday's last logged
weight is `y`: logging `w` with a gain of at least the patient's 24-hour
threshold produces exactly the store with the vital appended, the open
missed-weight escalations auto-resolved, ONE new level-2
`weight_spike_24h` escalation, and immediate nurse and caregiver alert
SMS; a gain below the threshold leaves the `weight_spike_24h` count
unchanged. -/
theorem claim6_amended_weight_spike (env : Env) (db : DB) (pid : String) (p : Patient)
    (w y : Rat) (now : Nat) (lastLog : VitalLog) (nph cph : String)
    (hp : getPatient db pid = some p)
    (hn : (db.escalations.map (fun e => e.id)).Nodup)
    (hshadow : utcDay now ≠ istDayBack now 1)
    (hy : (getVitalsForDate db pid (istDayBack now 1) (some "weight")).getLast?
      = some lastLog)
    (hval : lastLog.value = VitalValue.num y)
    (hnp : p.nurse_phone = some nph) (hcp : p.caregiver_phone = some cph)
    (htw : env.twilio_configured = true) (hnph : nph ≠ "") (hcph : cph ≠ "") :
    (ratSub w y ≥ effT24 p →
      logPatientVital env db pid "weight" (VitalValue.num w) now
        = some { db with
            vital_logs := db.vital_logs ++ [weightLogRec pid w now],
            escalations := db.escalations.map (resolveWeightMark pid now)
              ++ [weightEscRec pid "weight_spike_24h" db.nextId now],
            events := db.events ++
              [Event.sms nph (spikeNurseSms p (gain24Message p w y)),
               Event.sms cph (spikeCaregiverSms p (gain24Message p w y))],
            nextId := db.nextId + 1 }) ∧
    (¬ ratSub w y ≥ effT24 p →
      ∃ db3, logPatientVital env db pid "weight" (VitalValue.num w) now = some db3 ∧
        (db3.escalations.filter
            (fun e => e.trigger_type = "weight_spike_24h")).length
          = (db.escalations.filter
              (fun e => e.trigger_type = "weight_spike_24h")).length) := by
  have hpid : p.id = pid := by
    simp only [getPatient] at hp
    have h := List.find?_some hp
    simpa using h
  have hres : (resolveEscalationsForAction
      { db with vital_logs := db.vital_logs ++ [weightLogRec pid w now] } pid
      "weight" none now).1
      = { db with
          vital_logs := db.vital_logs ++ [weightLogRec pid w now],
          escalations := db.escalations.map (resolveWeightMark pid now) } :=
    resolveWeight_state
      { db with vital_logs := db.vital_logs ++ [weightLogRec pid w now] } pid now hn
  have hrun : logPatientVital env db pid "weight" (VitalValue.num w) now
      = some ((checkWeightThresholds env
          { db with
            vital_logs := db.vital_logs ++ [weightLogRec pid w now],
            escalations := db.escalations.map (resolveWeightMark pid now) }
          pid w now).1) := by
    have hlit : ({ patient_id := pid
                   vtype := "weight"
                   value := VitalValue.num w
                   date := utcDay now
                   logged_at := now } : VitalLog) = weightLogRec pid w now := rfl
    simp only [logPatientVital, hp]
    rw [hlit]
    rw [hres]
    norm_num [show ("weight" : String) ≠ "symptom_check" by decide]
  have hp2 : getPatient
      { db with
        vital_logs := db.vital_logs ++ [weightLogRec pid w now],
        escalations := db.escalations.map (resolveWeightMark pid now) } pid
      = some p := hp
  have hyl : getVitalsForDate
      { db with
        vital_logs := db.vital_logs ++ [weightLogRec pid w now],
        escalations := db.escalations.map (resolveWeightMark pid now) } pid
      (istDayBack now 1) (some "weight")
      = getVitalsForDate db pid (istDayBack now 1) (some "weight") :=
    getVitals_append_miss db _ (weightLogRec pid w now) pid (istDayBack now 1)
      (some "weight") rfl hshadow
  constructor
  · intro hga
    have hcwt : (checkWeightThresholds env
        { db with
          vital_logs := db.vital_logs ++ [weightLogRec pid w now],
          escalations := db.escalations.map (resolveWeightMark pid now) } pid w now).1
        = (createWeightEscalation env
            { db with
              vital_logs := db.vital_logs ++ [weightLogRec pid w now],
              escalations := db.escalations.map (resolveWeightMark pid now) } p
            "weight_spike_24h" (gain24Message p w y) now).1 := by
      simp only [checkWeightThresholds, hp2, hyl, hy, hval]
      rw [if_pos hga]
      rfl
    rw [hrun, hcwt, createWeightEsc_state env _ p "weight_spike_24h"
      (gain24Message p w y) now nph cph hnp hcp htw hnph hcph]
    rw [hpid]
  · intro hlt
    refine ⟨_, hrun, ?_⟩
    have hmap : ((db.escalations.map (resolveWeightMark pid now)).filter
        (fun e => e.trigger_type = "weight_spike_24h")).length
        = (db.escalations.filter
            (fun e => e.trigger_type = "weight_spike_24h")).length :=
      length_filter_map_eq (resolveWeightMark pid now) _
        (fun a => by rw [resolveWeightMark_trigger]) db.escalations
    simp only [checkWeightThresholds, hp2, hyl, hy, hval]
    rw [if_neg hlt]
    simp only [weekSpikeCheck]
    split
    · rename_i firstLog heq
      split
      · rename_i weekW hv
        by_cases h7 : ratSub w weekW ≥ effT7 p
        · rw [if_pos h7]
          dsimp only
          rw [createWeightEsc_escalations, List.filter_append]
          simpa [weightEscRec] using hmap
        · rw [if_neg h7]
          exact hmap
      · exact hmap
    · exact hmap

/-! Store-transition machinery, for claims C1 and C2. -/

theorem escKey_trigger {e1 e2 : Escalation} (h : escKey e1 = escKey e2) :
    e1.trigger_type = e2.trigger_type := by
  simp only [escKey, Prod.mk.injEq] at h
  exact h.2.1

/-- The operation-level evolution relation is transitive. -/
theorem escEvolves_trans {a b c : List Escalation} (h1 : EscEvolves a b)
    (h2 : EscEvolves b c) : EscEvolves a c := by
  obtain ⟨s1, f1, n1⟩ := h1
  obtain ⟨s2, f2, n2⟩ := h2
  refine ⟨?_, ?_, ?_⟩
  · intro e he
    obtain ⟨e2, he2, hid2⟩ := s1 e he
    obtain ⟨e3, he3, hid3⟩ := s2 e2 he2
    exact ⟨e3, he3, hid3.trans hid2⟩
  · intro e3 he3 e he hid
    obtain ⟨e2, he2, hid2⟩ := s1 e he
    have r1 := f1 e2 he2 e he hid2.symm
    have r2 := f2 e3 he3 e2 he2 (hid2.trans hid)
    obtain ⟨p1, t1, d1, m1, c1, l1, l1b, st1⟩ := r1
    obtain ⟨p2, t2, d2, m2, c2, l2, l2b, st2⟩ := r2
    refine ⟨p2.trans p1, t2.trans t1, d2.trans d1, m2.trans m1, c2.trans c1,
      Nat.le_trans l1 l2, l2b, ?_⟩
    rcases st2 with st2 | hst2
    · rcases st1 with st1 | hst1
      · exact Or.inl (st2.trans st1)
      · exact Or.inr ⟨hst1.1, st2.trans hst1.2⟩
    · rcases st1 with st1 | hst1
      · exact Or.inr ⟨st1 ▸ hst2.1, hst2.2⟩
      · rw [hst1.2] at hst2
        exact absurd hst2.1 (by decide)
  · intro e3 he3 hno
    by_cases hmid : ∃ e2 ∈ b, e2.id = e3.id
    · obtain ⟨e2, he2, hid2⟩ := hmid
      have hnew2 : ∀ e ∈ a, e.id ≠ e2.id := fun e he h => hno e he (h.trans hid2)
      have c2n := n1 e2 he2 hnew2
      have r2 := f2 e3 he3 e2 he2 hid2
      obtain ⟨p2, t2, d2, m2, c2, l2, l2b, st2⟩ := r2
      refine ⟨l2b, fun htr => ?_⟩
      have h2lv : e2.level = 2 := c2n.2 (t2 ▸ htr)
      exact Nat.le_antisymm l2b (h2lv ▸ l2)
    · push_neg at hmid
      exact n2 e3 he3 hmid

theorem step_refl (db : DB) (hw : WF db) : Step db db := by
  obtain ⟨hnod, hbound, hl2, hst⟩ := hw
  refine ⟨⟨hnod, hbound, hl2, hst⟩, ⟨?_, ?_, ?_⟩, Nat.le_refl _, fun h => h⟩
  · intro e he
    exact ⟨e, he, rfl⟩
  · intro e2 he2 e he hid
    have hee : e = e2 := List.inj_on_of_nodup_map hnod he he2 hid
    subst hee
    exact ⟨rfl, rfl, rfl, rfl, rfl, Nat.le_refl _, hl2 e he, Or.inl rfl⟩
  · intro e2 he2 hno
    exact absurd rfl (hno e2 he2)

theorem step_trans {db db2 db3 : DB} (h1 : Step db db2) (h2 : Step db2 db3) :
    Step db db3 :=
  ⟨h2.1, escEvolves_trans h1.2.1 h2.2.1, Nat.le_trans h1.2.2.1 h2.2.2.1,
   fun hu => h2.2.2.2 (h1.2.2.2 hu)⟩

/-- A transition that leaves the escalations and the id counter alone. -/
theorem step_same {db db2 : DB} (h1 : db2.escalations = db.escalations)
    (h2 : db2.nextId = db.nextId) (hw : WF db) : Step db db2 := by
  have hr := step_refl db hw
  refine ⟨?_, ?_, ?_, ?_⟩
  · unfold WF at hw ⊢
    rw [h1, h2]
    exact hw
  · rw [h1]
    exact hr.2.1
  · rw [h2]
  · rw [h1]
    exact hr.2.2.2

/-- A transition that maps every stored escalation pointwise, preserving
id, identity fields, bounded levels and the one-way status move. -/
theorem step_mapEsc (db db2 : DB) (g : Escalation → Escalation)
    (hdb : db2.escalations = db.escalations.map g) (hnx : db2.nextId = db.nextId)
    (hid : ∀ e, (g e).id = e.id)
    (hpat : ∀ e, (g e).patient_id = e.patient_id)
    (htri : ∀ e, (g e).trigger_type = e.trigger_type)
    (hdat : ∀ e, (g e).date = e.date)
    (hmed : ∀ e, (g e).payload_med = e.payload_med)
    (hcre : ∀ e, (g e).created_at = e.created_at)
    (hlev : ∀ e ∈ db.escalations, e.level ≤ (g e).level ∧ (g e).level ≤ 2)
    (hstat : ∀ e ∈ db.escalations, (g e).status = e.status ∨
      (e.status = "open" ∧ (g e).status = "resolved"))
    (hw : WF db) : Step db db2 := by
  obtain ⟨hnod, hbound, hl2, hst⟩ := hw
  have hids : db2.escalations.map (fun e => e.id) = db.escalations.map (fun e => e.id) := by
    rw [hdb, List.map_map]
    exact List.map_congr_left (fun e _ => hid e)
  have hkey : ∀ e, escKey (g e) = escKey e := by
    intro e
    simp [escKey, hpat e, htri e, hdat e, hmed e]
  refine ⟨⟨?_, ?_, ?_, ?_⟩, ⟨?_, ?_, ?_⟩, by rw [hnx], ?_⟩
  · rw [hids]
    exact hnod
  · intro e2 he2
    rw [hdb] at he2
    obtain ⟨e, he, rfl⟩ := List.mem_map.mp he2
    rw [hid, hnx]
    exact hbound e he
  · intro e2 he2
    rw [hdb] at he2
    obtain ⟨e, he, rfl⟩ := List.mem_map.mp he2
    exact (hlev e he).2
  · intro e2 he2
    rw [hdb] at he2
    obtain ⟨e, he, rfl⟩ := List.mem_map.mp he2
    rcases hstat e he with h | h
    · rw [h]
      exact hst e he
    · exact Or.inr h.2
  · intro e he
    refine ⟨g e, ?_, hid e⟩
    rw [hdb]
    exact List.mem_map_of_mem g he
  · intro e2 he2 e he hide
    rw [hdb] at he2
    obtain ⟨a, ha, rfl⟩ := List.mem_map.mp he2
    have hae : a = e := by
      apply List.inj_on_of_nodup_map hnod ha he
      rw [← hid a]
      exact hide.symm
    subst hae
    refine ⟨hpat a, htri a, hdat a, hmed a, hcre a, (hlev a ha).1, (hlev a ha).2, ?_⟩
    rcases hstat a ha with h | h
    · exact Or.inl h
    · exact Or.inr h
  · intro e2 he2 hno
    rw [hdb] at he2
    obtain ⟨a, ha, rfl⟩ := List.mem_map.mp he2
    exact absurd (hid a).symm (hno a ha)
  · intro hu e1 he1 e2 he2 ho1 ho2 htr hk
    rw [hdb] at he1 he2
    obtain ⟨a1, ha1, rfl⟩ := List.mem_map.mp he1
    obtain ⟨a2, ha2, rfl⟩ := List.mem_map.mp he2
    have ho1a : a1.status = "open" := by
      rcases hstat a1 ha1 with h | h
      · rw [← h]
        exact ho1
      · rw [h.2] at ho1
        exact absurd ho1 (by decide)
    have ho2a : a2.status = "open" := by
      rcases hstat a2 ha2 with h | h
      · rw [← h]
        exact ho2
      · rw [h.2] at ho2
        exact absurd ho2 (by decide)
    have htra : a1.trigger_type ∈ missedTriggers := by
      rw [← htri a1]
      exact htr
    have hka : escKey a1 = escKey a2 := by
      rw [← hkey a1, ← hkey a2]
      exact hk
    have hres := hu a1 ha1 a2 ha2 ho1a ho2a htra hka
    rw [hid a1, hid a2]
    exact hres

/-- A transition that appends one fresh open escalation. -/
theorem step_appendEsc (db db2 : DB) (e : Escalation)
    (hdb : db2.escalations = db.escalations ++ [e]) (hnx : db2.nextId = db.nextId + 1)
    (hide : e.id = db.nextId) (hlev : e.level ≤ 2)
    (htrig : e.trigger_type ∈ lvl2Triggers → e.level = 2)
    (hstat : e.status = "open")
    (huniq : e.trigger_type ∈ missedTriggers →
      ∀ x ∈ db.escalations, x.status = "open" → escKey x ≠ escKey e)
    (hw : WF db) : Step db db2 := by
  obtain ⟨hnod, hbound, hl2, hst⟩ := hw
  have hfresh : ∀ x ∈ db.escalations, x.id ≠ e.id := by
    intro x hx h
    have hb := hbound x hx
    rw [h, hide] at hb
    exact Nat.lt_irrefl _ hb
  refine ⟨⟨?_, ?_, ?_, ?_⟩, ⟨?_, ?_, ?_⟩, by rw [hnx]; exact Nat.le_succ _, ?_⟩
  · rw [hdb, List.map_append, List.nodup_append]
    refine ⟨hnod, List.nodup_singleton _, ?_⟩
    intro i hi hi2
    simp only [List.map_cons, List.map_nil, List.mem_singleton] at hi2
    obtain ⟨x, hx, hxi⟩ := List.mem_map.mp hi
    exact hfresh x hx (by rw [hxi, hi2])
  · intro x hx
    rw [hdb] at hx
    rcases List.mem_append.mp hx with h | h
    · rw [hnx]
      exact Nat.lt_succ_of_lt (hbound x h)
    · rw [List.mem_singleton] at h
      subst h
      rw [hide, hnx]
      exact Nat.lt_succ_self _
  · intro x hx
    rw [hdb] at hx
    rcases List.mem_append.mp hx with h | h
    · exact hl2 x h
    · rw [List.mem_singleton] at h
      subst h
      exact hlev
  · intro x hx
    rw [hdb] at hx
    rcases List.mem_append.mp hx with h | h
    · exact hst x h
    · rw [List.mem_singleton] at h
      subst h
      exact Or.inl hstat
  · intro x hx
    refine ⟨x, ?_, rfl⟩
    rw [hdb]
    exact List.mem_append_left _ hx
  · intro e2 he2 x hx hidx
    rw [hdb] at he2
    rcases List.mem_append.mp he2 with h | h
    · have hxe : x = e2 := List.inj_on_of_nodup_map hnod hx h hidx
      subst hxe
      exact ⟨rfl, rfl, rfl, rfl, rfl, Nat.le_refl _, hl2 x hx, Or.inl rfl⟩
    · rw [List.mem_singleton] at h
      subst h
      exact absurd hidx (hfresh x hx)
  · intro e2 he2 hno
    rw [hdb] at he2
    rcases List.mem_append.mp he2 with h | h
    · exact absurd rfl (hno e2 h)
    · rw [List.mem_singleton] at h
      subst h
      exact ⟨hlev, htrig⟩
  · intro hu x1 hx1 x2 hx2 ho1 ho2 htr hk
    rw [hdb] at hx1 hx2
    rcases List.mem_append.mp hx1 with h1 | h1 <;>
      rcases List.mem_append.mp hx2 with h2 | h2
    · exact hu x1 h1 x2 h2 ho1 ho2 htr hk
    · rw [List.mem_singleton] at h2
      subst h2
      have htre : x2.trigger_type ∈ missedTriggers := by
        rw [← escKey_trigger hk]
        exact htr
      exact absurd hk (huniq htre x1 h1 ho1)
    · rw [List.mem_singleton] at h1
      subst h1
      exact absurd hk.symm (huniq htr x2 h2 ho2)
    · rw [List.mem_singleton] at h1 h2
      rw [h1, h2]

theorem step_of_eventsOnly {db db2 : DB} (h : ∃ ev, db2 = { db with events := ev })
    (hw : WF db) : Step db db2 := by
  obtain ⟨ev, h⟩ := h
  exact step_same (by rw [h]) (by rw [h]) hw

/-- `fdb.resolve_escalation` is a lifecycle-respecting transition. -/
theorem resolveById_step (db : DB) (k : Nat) (rb : String) (now : Nat) (hw : WF db) :
    Step db (resolveEscalationById db k rb now) := by
  refine step_mapEsc db _ _ (resolveById_escalations db k rb now) rfl
    ?_ ?_ ?_ ?_ ?_ ?_ ?_ ?_ hw
  · intro e
    by_cases h : e.id = k <;> simp [h]
  · intro e
    by_cases h : e.id = k <;> simp [h]
  · intro e
    by_cases h : e.id = k <;> simp [h]
  · intro e
    by_cases h : e.id = k <;> simp [h]
  · intro e
    by_cases h : e.id = k <;> simp [h]
  · intro e
    by_cases h : e.id = k <;> simp [h]
  · intro e he
    by_cases h : e.id = k <;> simp [h, hw.2.2.1 e he]
  · intro e he
    by_cases h : e.id = k
    · rcases hw.2.2.2 e he with ho | hr
      · exact Or.inr ⟨ho, by simp [h]⟩
      · refine Or.inl ?_
        simp [h, hr]
    · exact Or.inl (by simp [h])

theorem sendNotification_step (env : Env) (db : DB) (p : Patient) (t b nt : String)
    (ruleId : Option Nat) (now : Nat) (hw : WF db) :
    Step db (sendNotification env db p t b nt ruleId now).1 := by
  obtain ⟨rec, ev, h, h1, h2, h3⟩ := sendNotification_db env db p t b nt ruleId now
  exact step_same (by rw [h]) (by rw [h]) hw

/-- `fdb.create_escalation` is a lifecycle-respecting transition when
the written level fits the trigger and the open-uniqueness guard held. -/
theorem createEsc_step (db : DB) (pid trig : String) (date : Option Nat) (level : Nat)
    (pm ps : Option String) (now : Nat) (hlev : level ≤ 2)
    (htrig : trig ∈ lvl2Triggers → level = 2)
    (huniq : trig ∈ missedTriggers → ∀ x ∈ db.escalations, x.status = "open" →
      escKey x ≠ (pid, trig, date, pm))
    (hw : WF db) : Step db (createEscalation db pid trig date level pm ps now).1 := by
  refine step_appendEsc db _
    { id := db.nextId, patient_id := pid, trigger_type := trig, date := date,
      level := level, status := "open", created_at := now, payload_med := pm,
      payload_sched := ps, resolved_by := none, resolved_at := none }
    rfl rfl rfl hlev htrig rfl ?_ hw
  intro hm x hx ho
  exact huniq hm x hx ho

/-- `_create_weight_escalation` (create at level 2, nurse SMS, caregiver
SMS) is a lifecycle-respecting transition for a non-missed trigger. -/
theorem createWeightEsc_step (env : Env) (db : DB) (p : Patient) (trig msg : String)
    (now : Nat) (htm : trig ∉ missedTriggers) (hw : WF db) :
    Step db (createWeightEscalation env db p trig msg now).1 := by
  have s1 : Step db (createEscalation db p.id trig none 2 none none now).1 :=
    createEsc_step db p.id trig none 2 none none now (Nat.le_refl 2) (fun _ => rfl)
      (fun hm => absurd hm htm) hw
  have s12 := step_trans s1
    (step_of_eventsOnly (notifyNurse_eventsOnly env
      (createEscalation db p.id trig none 2 none none now).1 p
      ("WEIGHT ALERT: " ++ pName p ++ " — " ++ msg)) s1.1)
  exact step_trans s12
    (step_of_eventsOnly (notifyCaregiver_eventsOnly env
      (notifyNurse env (createEscalation db p.id trig none 2 none none now).1 p
        ("WEIGHT ALERT: " ++ pName p ++ " — " ++ msg)) p
      ("Weight alert for " ++ pName p ++ ": " ++ msg ++
        ". Please ensure they contact their care team.")) s12.1)

theorem weekSpike_step (env : Env) (p : Patient) (pid : String) (w : Rat) (now : Nat)
    (db : DB) (hw : WF db) : Step db (weekSpikeCheck env p pid w now db).1 := by
  unfold weekSpikeCheck
  dsimp only
  split
  · rename_i firstLog heq
    split
    · rename_i weekW hv
      by_cases h7 : ratSub w weekW ≥ effT7 p
      · rw [if_pos h7]
        exact createWeightEsc_step env db p "weight_spike_7d" _ now (by decide) hw
      · rw [if_neg h7]
        exact step_refl db hw
    · exact step_refl db hw
  · exact step_refl db hw

theorem cwt_step (env : Env) (db : DB) (pid : String) (w : Rat) (now : Nat)
    (hw : WF db) : Step db (checkWeightThresholds env db pid w now).1 := by
  unfold checkWeightThresholds
  split
  · exact step_refl db hw
  · rename_i p hp
    dsimp only
    split
    · rename_i lastLog hlast
      split
      · rename_i y hv
        by_cases hga : ratSub w y ≥ effT24 p
        · rw [if_pos hga]
          exact createWeightEsc_step env db p "weight_spike_24h" _ now (by decide) hw
        · rw [if_neg hga]
          exact weekSpike_step env p pid w now db hw
      · exact weekSpike_step env p pid w now db hw
    · exact weekSpike_step env p pid w now db hw

theorem symptomFlags_step (env : Env) (db : DB) (pid : String) (ss : List String)
    (now : Nat) (hw : WF db) : Step db (checkSymptomRedFlags env db pid ss now).1 := by
  unfold checkSymptomRedFlags
  split
  · exact step_refl db hw
  · rename_i p hp
    dsimp only
    split
    · exact step_refl db hw
    · have s1 : Step db (createEscalation db pid "red_flag" none 2 none none now).1 :=
        createEsc_step db pid "red_flag" none 2 none none now (Nat.le_refl 2)
          (fun _ => rfl) (fun hm => absurd hm (by decide)) hw
      have s12 := step_trans s1
        (step_of_eventsOnly (notifyNurse_eventsOnly env
          (createEscalation db pid "red_flag" none 2 none none now).1 p
          ("RED FLAG: " ++ pName p ++ " reported: " ++
            joinComma ((ss.map lowerStr).filter (fun s =>
              ((effRedZone p).map lowerStr).any (fun rz =>
                strContains s rz || strContains rz s))) ++
            ". Immediate attention required.")) s1.1)
      exact step_trans s12
        (step_of_eventsOnly (notifyCaregiver_eventsOnly env
          (notifyNurse env (createEscalation db pid "red_flag" none 2 none none now).1 p
            ("RED FLAG: " ++ pName p ++ " reported: " ++
              joinComma ((ss.map lowerStr).filter (fun s =>
                ((effRedZone p).map lowerStr).any (fun rz =>
                  strContains s rz || strContains rz s))) ++
              ". Immediate attention required."))
          p
          ("Alert: " ++ pName p ++ " reported concerning symptoms: " ++
            joinComma ((ss.map lowerStr).filter (fun s =>
              ((effRedZone p).map lowerStr).any (fun rz =>
                strContains s rz || strContains rz s))) ++
            ". Please check on them.")) s12.1)

/-- Folding lifecycle-respecting per-item transitions is one. -/
theorem step_foldl2 {α β : Type} (f : (DB × β) → α → DB × β)
    (hf : ∀ acc a, WF acc.1 → Step acc.1 (f acc a).1) :
    ∀ (l : List α) (acc : DB × β), WF acc.1 → Step acc.1 (l.foldl f acc).1
  | [], acc, hw => step_refl acc.1 hw
  | a :: l, acc, hw => by
    have h1 := hf acc a hw
    have h2 := step_foldl2 f hf l (f acc a) h1.1
    exact step_trans h1 h2

/-- `resolve_escalations_for_action` is a lifecycle-respecting
transition. -/
theorem resolveAction_step (db : DB) (pid a : String) (extra : Option String)
    (now : Nat) (hw : WF db) :
    Step db (resolveEscalationsForAction db pid a extra now).1 := by
  have hfold : ∀ tts : List String, Step db ((List.foldl (fun (acc : DB × Nat) esc =>
      if tts.contains esc.trigger_type then
        if a = "medication" ∧ extra.isSome ∧ esc.payload_med ≠ extra then acc
        else (resolveEscalationById acc.1 esc.id "patient_action" now, acc.2 + 1)
      else acc) (db, 0) (getOpenEscalations db pid)).1) := by
    intro tts
    refine step_foldl2 _ ?_ (getOpenEscalations db pid) (db, 0) hw
    intro acc x hwa
    dsimp only
    split
    · split
      · exact step_refl acc.1 hwa
      · exact resolveById_step acc.1 x.id "patient_action" now hwa
    · exact step_refl acc.1 hwa
  simp only [resolveEscalationsForAction]
  repeat' split
  all_goals first
    | exact step_refl db hw
    | exact hfold _

theorem sendNotification_escalations (env : Env) (db : DB) (p : Patient)
    (t b nt : String) (ruleId : Option Nat) (now : Nat) :
    (sendNotification env db p t b nt ruleId now).1.escalations = db.escalations := by
  obtain ⟨rec, ev, h, h1, h2, h3⟩ := sendNotification_db env db p t b nt ruleId now
  rw [h]

/-- `_handle_missed_action` is a lifecycle-respecting transition for a
trigger outside the direct-to-level-2 family. -/
theorem handleMissed_step (env : Env) (db : DB) (p : Patient) (trigger : String)
    (today : Nat) (extra : Option MedExtra) (now : Nat) (st : EscStats)
    (htm : trigger ∉ lvl2Triggers) (hw : WF db) :
    Step db (handleMissedAction env db p trigger today extra now st).1 := by
  simp only [handleMissedAction]
  split
  · rename_i esc hfind
    have hmem0 : esc ∈ getOpenEscalations db p.id := List.mem_of_find?_eq_some hfind
    have hmem : esc ∈ db.escalations := by
      simp only [getOpenEscalations, List.mem_filter] at hmem0
      exact hmem0.1
    split
    · rename_i h1
      have s1 : Step db (updateEscalationLevel db esc.id 1) := by
        refine step_mapEsc db _ _ rfl rfl ?_ ?_ ?_ ?_ ?_ ?_ ?_ ?_ hw
        · intro e
          by_cases h : e.id = esc.id <;> simp [h]
        · intro e
          by_cases h : e.id = esc.id <;> simp [h]
        · intro e
          by_cases h : e.id = esc.id <;> simp [h]
        · intro e
          by_cases h : e.id = esc.id <;> simp [h]
        · intro e
          by_cases h : e.id = esc.id <;> simp [h]
        · intro e
          by_cases h : e.id = esc.id <;> simp [h]
        · intro e he
          by_cases h : e.id = esc.id
          · have hee : e = esc := List.inj_on_of_nodup_map hw.1 he hmem h
            simp [h, hee, h1.1]
          · simp [h, hw.2.2.1 e he]
        · intro e he
          by_cases h : e.id = esc.id <;> simp [h]
      exact step_trans s1 (step_of_eventsOnly (notifyCaregiver_eventsOnly env
        (updateEscalationLevel db esc.id 1) p
        (pName p ++ " hasn't " ++ actionVerb trigger ++ ". Please remind them.")) s1.1)
    · split
      · rename_i h1 h2
        have s1 : Step db (updateEscalationLevel db esc.id 2) := by
          refine step_mapEsc db _ _ rfl rfl ?_ ?_ ?_ ?_ ?_ ?_ ?_ ?_ hw
          · intro e
            by_cases h : e.id = esc.id <;> simp [h]
          · intro e
            by_cases h : e.id = esc.id <;> simp [h]
          · intro e
            by_cases h : e.id = esc.id <;> simp [h]
          · intro e
            by_cases h : e.id = esc.id <;> simp [h]
          · intro e
            by_cases h : e.id = esc.id <;> simp [h]
          · intro e
            by_cases h : e.id = esc.id <;> simp [h]
          · intro e he
            by_cases h : e.id = esc.id
            · have hee : e = esc := List.inj_on_of_nodup_map hw.1 he hmem h
              simp [h, hee, h2.1]
            · simp [h, hw.2.2.1 e he]
          · intro e he
            by_cases h : e.id = esc.id <;> simp [h]
        exact step_trans s1 (step_of_eventsOnly (notifyNurse_eventsOnly env
          (updateEscalationLevel db esc.id 2) p
          (pName p ++ " — " ++ actionDescription trigger ++
            ". No response from caregiver.")) s1.1)
      · exact step_refl db hw
  · rename_i hfind
    have hnone := List.find?_eq_none.mp hfind
    have hguard : ∀ x ∈ db.escalations, x.status = "open" →
        escKey x ≠ (p.id, trigger, some today, extra.map (·.medication_name)) := by
      intro x hx ho hk
      simp only [escKey, Prod.mk.injEq] at hk
      obtain ⟨hkp, hkt, hkd, hkm⟩ := hk
      have hxopen : x ∈ getOpenEscalations db p.id := by
        simp only [getOpenEscalations, List.mem_filter]
        exact ⟨hx, by simp [ho, hkp]⟩
      apply hnone x hxopen
      cases extra with
      | none => simp [hkt, hkd]
      | some ex =>
        simp only [Option.map_some'] at hkm
        simp [hkt, hkd, hkm]
    have s1 : Step db (createEscalation db p.id trigger (some today) 0
        (extra.map (·.medication_name)) (extra.map (·.scheduled_time)) now).1 :=
      createEsc_step db p.id trigger (some today) 0 (extra.map (·.medication_name))
        (extra.map (·.scheduled_time)) now (Nat.zero_le 2)
        (fun hm => absurd hm htm) (fun _ => hguard) hw
    exact step_trans s1 (sendNotification_step env _ p "Reminder"
      (patientReminderText trigger extra) trigger none now s1.1)

theorem handlerEvolves_refl (l : List Escalation) : HandlerEvolves l l :=
  ⟨fun e he => ⟨e, he, rfl, Or.inl rfl⟩, fun e2 he2 hno => absurd rfl (hno e2 he2)⟩

theorem handlerEvolves_bump (l : List Escalation) (esc : Escalation) (lvl : Nat)
    (hmem : esc ∈ l) (hl : esc.level ≤ 1) (hlv : lvl = esc.level + 1)
    (hn : (l.map (fun e => e.id)).Nodup) :
    HandlerEvolves l (l.map (fun e => if e.id = esc.id then { e with level := lvl }
      else e)) := by
  constructor
  · intro e he
    refine ⟨if e.id = esc.id then { e with level := lvl } else e,
      List.mem_map_of_mem _ he, ?_, ?_⟩
    · by_cases h : e.id = esc.id <;> simp [h]
    · by_cases h : e.id = esc.id
      · have hee : e = esc := List.inj_on_of_nodup_map hn he hmem h
        refine Or.inr ⟨?_, ?_⟩
        · simp only [if_pos h]
          rw [hlv, hee]
        · rw [hee]
          exact hl
      · left
        simp [h]
  · intro e2 he2 hno
    obtain ⟨a, ha, rfl⟩ := List.mem_map.mp he2
    have hs : a.id = (if a.id = esc.id then { a with level := lvl } else a).id := by
      by_cases h : a.id = esc.id <;> simp [h]
    exact absurd hs (hno a ha)

theorem handlerEvolves_append (l : List Escalation) (e : Escalation)
    (hlev : e.level = 0) : HandlerEvolves l (l ++ [e]) := by
  constructor
  · intro x hx
    exact ⟨x, List.mem_append_left _ hx, rfl, Or.inl rfl⟩
  · intro e2 he2 hno
    rcases List.mem_append.mp he2 with h | h
    · exact absurd rfl (hno e2 h)
    · rw [List.mem_singleton] at h
      subst h
      exact hlev

/-- One `_handle_missed_action` invocation: promotions are single-step
and only from levels 0 and 1, creations are at level 0. -/
theorem handleMissed_evolves (env : Env) (db : DB) (p : Patient) (trigger : String)
    (today : Nat) (extra : Option MedExtra) (now : Nat) (st : EscStats)
    (hn : (db.escalations.map (fun e => e.id)).Nodup) :
    HandlerEvolves db.escalations
      (handleMissedAction env db p trigger today extra now st).1.escalations := by
  simp only [handleMissedAction]
  split
  · rename_i esc hfind
    have hmem0 : esc ∈ getOpenEscalations db p.id := List.mem_of_find?_eq_some hfind
    have hmem : esc ∈ db.escalations := by
      simp only [getOpenEscalations, List.mem_filter] at hmem0
      exact hmem0.1
    split
    · rename_i h1
      dsimp only
      rw [notifyCaregiver_escalations]
      exact handlerEvolves_bump db.escalations esc 1 hmem (by simp [h1.1])
        (by simp [h1.1]) hn
    · split
      · rename_i h1 h2
        dsimp only
        rw [notifyNurse_escalations]
        exact handlerEvolves_bump db.escalations esc 2 hmem (by simp [h2.1])
          (by simp [h2.1]) hn
      · exact handlerEvolves_refl db.escalations
  · rename_i hfind
    dsimp only
    rw [sendNotification_escalations]
    exact handlerEvolves_append db.escalations _ rfl

theorem missedWeightStage_step (env : Env) (p : Patient) (now : Nat)
    (acc : DB × EscStats) (hw : WF acc.1) :
    Step acc.1 (missedWeightStage env p now acc).1 := by
  unfold missedWeightStage
  split
  · split
    · exact handleMissed_step env acc.1 p "missed_weight" (istDay now) none now acc.2
        (by decide) hw
    · exact step_refl acc.1 hw
  · exact step_refl acc.1 hw

theorem missedMedTime_step (env : Env) (p : Patient) (now : Nat) (rule : Rule)
    (acc : DB × EscStats) (t : String) (hw : WF acc.1) :
    Step acc.1 (missedMedTime env p now rule acc t).1 := by
  unfold missedMedTime
  dsimp only
  repeat' split
  all_goals first
    | exact step_refl acc.1 hw
    | exact handleMissed_step env acc.1 p "missed_medication" (istDay now)
        (some { medication_name := rule.med_name.getD "", scheduled_time := t })
        now acc.2 (by decide) hw

theorem missedMedRule_step (env : Env) (p : Patient) (now : Nat) (acc : DB × EscStats)
    (rule : Rule) (hw : WF acc.1) :
    Step acc.1 (missedMedRule env p now acc rule).1 := by
  unfold missedMedRule
  split
  · exact step_refl acc.1 hw
  · exact step_foldl2 _ (fun a t hwa => missedMedTime_step env p now rule a t hwa)
      rule.times acc hw

theorem missedMedStage_step (env : Env) (p : Patient) (now : Nat)
    (acc : DB × EscStats) (hw : WF acc.1) :
    Step acc.1 (missedMedStage env p now acc).1 := by
  unfold missedMedStage
  exact step_foldl2 _ (fun a r hwa => missedMedRule_step env p now a r hwa)
    (getReminderRules acc.1 p.id) acc hw

theorem consecStage_step (env : Env) (p : Patient) (now : Nat) (acc : DB × EscStats)
    (hw : WF acc.1) : Step acc.1 (consecStage env p now acc).1 := by
  unfold consecStage
  dsimp only
  split
  · split
    · exact step_refl acc.1 hw
    · rename_i hd hg
      have hguard : ("consecutive_missed_weight" : String) ∈ missedTriggers →
          ∀ x ∈ acc.1.escalations, x.status = "open" →
          escKey x ≠ (p.id, "consecutive_missed_weight", none, none) := by
        intro _ x hx ho hk
        simp only [escKey, Prod.mk.injEq] at hk
        obtain ⟨hkp, hkt, hkd, hkm⟩ := hk
        apply hg
        rw [List.any_eq_true]
        refine ⟨x, ?_, by simp [hkt]⟩
        simp only [getOpenEscalations, List.mem_filter]
        exact ⟨hx, by simp [ho, hkp]⟩
      have s1 : Step acc.1 (createEscalation acc.1 p.id "consecutive_missed_weight"
          none 2 none none now).1 :=
        createEsc_step acc.1 p.id "consecutive_missed_weight" none 2 none none now
          (Nat.le_refl 2) (fun _ => rfl) hguard hw
      exact step_trans s1 (step_of_eventsOnly (notifyNurse_eventsOnly env
        (createEscalation acc.1 p.id "consecutive_missed_weight" none 2 none none
          now).1 p
        ("ALERT: " ++ pName p ++ " has not logged weight for " ++
          toString (consecMissedDays acc.1 p.id now) ++ " consecutive days.")) s1.1)
  · exact step_refl acc.1 hw

theorem checkPatientMissed_step (env : Env) (p : Patient) (now : Nat)
    (acc : DB × EscStats) (hw : WF acc.1) :
    Step acc.1 (checkPatientMissed env p now acc).1 := by
  unfold checkPatientMissed
  have s1 : Step acc.1 (missedWeightStage env p now
      (acc.1, { acc.2 with checked := acc.2.checked + 1 })).1 :=
    missedWeightStage_step env p now
      (acc.1, { acc.2 with checked := acc.2.checked + 1 }) hw
  have s2 := step_trans s1 (missedMedStage_step env p now (missedWeightStage env p now
    (acc.1, { acc.2 with checked := acc.2.checked + 1 })) s1.1)
  exact step_trans s2 (consecStage_step env p now (missedMedStage env p now
    (missedWeightStage env p now
      (acc.1, { acc.2 with checked := acc.2.checked + 1 }))) s2.1)

/-- `check_missed_actions` is a lifecycle-respecting transition. -/
theorem checkMissedActions_step (env : Env) (db : DB) (now : Nat) (hw : WF db) :
    Step db (checkMissedActions env db now).1 := by
  unfold checkMissedActions
  exact step_foldl2 _ (fun a p hwa => checkPatientMissed_step env p now a hwa)
    (listActivePatients db) (db, { checked := 0, new_escalations := 0, level_ups := 0 })
    hw

theorem foldl_frame {α β γ : Type} (f : β → α → β) (m : β → γ)
    (hf : ∀ b a, m (f b a) = m b) : ∀ (l : List α) (b : β), m (l.foldl f b) = m b
  | [], _ => rfl
  | a :: l, b => by
    rw [List.foldl_cons, foldl_frame f m hf l (f b a), hf]

theorem evalOneRule_frame (env : Env) (now : Nat) (p : Patient) (acc : DB × SchedStats)
    (r : Rule) :
    ((evalOneRule env now p acc r).1.escalations, (evalOneRule env now p acc r).1.nextId)
      = (acc.1.escalations, acc.1.nextId) := by
  rcases evalOneRule_db env now p acc r with h | ⟨hg, h⟩
  · rw [h]
  · obtain ⟨rec, ev, hdb, h1, h2, h3⟩ := sendNotification_db env acc.1 p
      (buildNotificationContent r).1 (buildNotificationContent r).2 r.rtype
      (some r.id) now
    rw [h, hdb]

/-- The scheduler never touches the escalation store. -/
theorem evalReminders_step (env : Env) (db : DB) (now : Nat) (hw : WF db) :
    Step db (evaluateAndSendReminders env db now).1 := by
  have hfr : ((evaluateAndSendReminders env db now).1.escalations,
      (evaluateAndSendReminders env db now).1.nextId) = (db.escalations, db.nextId) := by
    unfold evaluateAndSendReminders
    refine foldl_frame _
      (fun (acc : DB × SchedStats) => (acc.1.escalations, acc.1.nextId)) ?_
      (listActivePatients db)
      (db, { evaluated := 0, sent := 0, skipped := 0, failed := 0 })
    intro acc p
    exact foldl_frame _
      (fun (acc2 : DB × SchedStats) => (acc2.1.escalations, acc2.1.nextId))
      (fun b2 r => evalOneRule_frame env now p b2 r) (getReminderRules acc.1 p.id) acc
  exact step_same (congrArg Prod.fst hfr) (congrArg Prod.snd hfr) hw

theorem vitalStage_step (env : Env) (pid : String) (vtype : String) (value : VitalValue)
    (now : Nat) (d : DB) (hw : WF d) :
    Step d (if vtype = "weight" then
        match value with
        | VitalValue.num w => (checkWeightThresholds env d pid w now).1
        | _ => d
      else d) := by
  split
  · split
    all_goals first
      | exact cwt_step env d pid _ now hw
      | exact step_refl d hw
  · exact step_refl d hw

theorem symptomStage_step (env : Env) (pid : String) (vtype : String)
    (value : VitalValue) (now : Nat) (d : DB) (hw : WF d) :
    Step d (if vtype = "symptom_check" then
        match value with
        | VitalValue.symptoms ss =>
          if !ss.isEmpty then (checkSymptomRedFlags env d pid ss now).1 else d
        | _ => d
      else d) := by
  split
  · split
    · split
      · exact symptomFlags_step env d pid _ now hw
      · exact step_refl d hw
    all_goals exact step_refl d hw
  · exact step_refl d hw

/-- `log_patient_vital` is a lifecycle-respecting transition. -/
theorem logVital_step (env : Env) (db : DB) (pid vtype : String) (value : VitalValue)
    (now : Nat) (hw : WF db) :
    Step db ((logPatientVital env db pid vtype value now).getD db) := by
  unfold logPatientVital
  cases hg : getPatient db pid with
  | none => exact step_refl db hw
  | some q =>
    have s1 : Step db { db with vital_logs := db.vital_logs ++
        [{ patient_id := pid, vtype := vtype, value := value, date := utcDay now,
           logged_at := now }] } := step_same rfl rfl hw
    have s2 := step_trans s1 (resolveAction_step _ pid vtype none now s1.1)
    have s3 := step_trans s2 (vitalStage_step env pid vtype value now _ s2.1)
    exact step_trans s3 (symptomStage_step env pid vtype value now _ s3.1)

/-- `acknowledge_medication` is a lifecycle-respecting transition. -/
theorem ackMed_step (env : Env) (db : DB) (pid mn schedTime status : String)
    (skipReason : Option String) (now : Nat) (hw : WF db) :
    Step db ((acknowledgeMedication env db pid mn schedTime status skipReason
      now).getD db) := by
  unfold acknowledgeMedication
  cases hg : getPatient db pid with
  | none => exact step_refl db hw
  | some q =>
    have s1 : Step db { db with medication_logs := db.medication_logs ++
        [{ patient_id := pid, medication_name := mn, scheduled_time := schedTime,
           status := status, skip_reason := skipReason, date := utcDay now }] } :=
      step_same rfl rfl hw
    dsimp only
    split
    · exact step_trans s1 (resolveAction_step _ pid "medication" (some mn) now s1.1)
    · exact s1

/-- Every external operation is a lifecycle-respecting transition. -/
theorem applyOp_step (env : Env) (op : Op) (db : DB) (hw : WF db) :
    Step db (applyOp env op db) := by
  cases op with
  | logVital pid vtype value now => exact logVital_step env db pid vtype value now hw
  | ackMedication pid mn schedTime status skipReason now =>
    exact ackMed_step env db pid mn schedTime status skipReason now hw
  | checkMissed now => exact checkMissedActions_step env db now hw
  | evalReminders now => exact evalReminders_step env db now hw
  | ackAlert escId now => exact resolveById_step db escId "nurse_ack" now hw
  | resolveAlert escId rb now => exact resolveById_step db escId rb now hw

/-- Every operation sequence is a lifecycle-respecting transition. -/
theorem runOps_step (env : Env) : ∀ (ops : List Op) (db : DB), WF db →
    Step db (runOps env ops db)
  | [], db, hw => step_refl db hw
  | op :: ops, db, hw => by
    have h1 := applyOp_step env op db hw
    have h2 := runOps_step env ops (applyOp env op db) h1.1
    exact step_trans h1 h2

/-- C10: `generate_reminder_rules` emits the weight (07:30), BP (08:30)
and symptom-check (19:00) rules when the care-plan extraction lacks the
monitoring section entirely or omits a flag: each monitoring flag is read
with default `True`, so only an explicit `false` suppresses that rule.
The three iffs characterize suppression (`flagX e = false` exactly when
the monitoring section is present and carries an explicit `false`); the
six implications show the per-flag effect on the generated store. -/
theorem claim10_monitoring_defaults (db : DB) (pid : String) (e : Extraction) :
    (flagWeight e = false ↔
      ∃ m, effMonitoring e = some m ∧ m.daily_weight_required = some false) ∧
    (flagBp e = false ↔
      ∃ m, effMonitoring e = some m ∧ m.bp_required = some false) ∧
    (flagSymptom e = false ↔
      ∃ m, effMonitoring e = some m ∧ m.symptom_check_required = some false) ∧
    (flagWeight e = true →
      ∃ i, (generateReminderRules db pid e).1.reminder_rules.filter
          (fun r => r.rtype = "weight")
        = db.reminder_rules.filter (fun r => r.rtype = "weight")
          ++ [weightRuleGen pid i]) ∧
    (flagWeight e = false →
      (generateReminderRules db pid e).1.reminder_rules.filter
          (fun r => r.rtype = "weight")
        = db.reminder_rules.filter (fun r => r.rtype = "weight")) ∧
    (flagBp e = true →
      ∃ i, (generateReminderRules db pid e).1.reminder_rules.filter
          (fun r => r.rtype = "bp")
        = db.reminder_rules.filter (fun r => r.rtype = "bp") ++ [bpRuleGen pid i]) ∧
    (flagBp e = false →
      (generateReminderRules db pid e).1.reminder_rules.filter (fun r => r.rtype = "bp")
        = db.reminder_rules.filter (fun r => r.rtype = "bp")) ∧
    (flagSymptom e = true →
      ∃ i, (generateReminderRules db pid e).1.reminder_rules.filter
          (fun r => r.rtype = "symptom_check")
        = db.reminder_rules.filter (fun r => r.rtype = "symptom_check")
          ++ [symptomRuleGen pid i]) ∧
    (flagSymptom e = false →
      (generateReminderRules db pid e).1.reminder_rules.filter
          (fun r => r.rtype = "symptom_check")
        = db.reminder_rules.filter (fun r => r.rtype = "symptom_check")) := by
  have hW := genRules_filter db pid e (fun r => r.rtype = "weight")
    (fun r hr => by simp [hr]) (fun r hr => by simp [hr]) (fun r hr => by simp [hr])
  have hB := genRules_filter db pid e (fun r => r.rtype = "bp")
    (fun r hr => by simp [hr]) (fun r hr => by simp [hr]) (fun r hr => by simp [hr])
  have hS := genRules_filter db pid e (fun r => r.rtype = "symptom_check")
    (fun r hr => by simp [hr]) (fun r hr => by simp [hr]) (fun r hr => by simp [hr])
  refine ⟨?_, ?_, ?_, ?_, ?_, ?_, ?_, ?_, ?_⟩
  · rw [flagWeight]
    cases hm : effMonitoring e with
    | none => simp
    | some m => cases hf : m.daily_weight_required <;> simp [hf]
  · rw [flagBp]
    cases hm : effMonitoring e with
    | none => simp
    | some m => cases hf : m.bp_required <;> simp [hf]
  · rw [flagSymptom]
    cases hm : effMonitoring e with
    | none => simp
    | some m => cases hf : m.symptom_check_required <;> simp [hf]
  · intro h
    refine ⟨(genAccMed db pid e).1.nextId, ?_⟩
    rw [hW]
    cases hb : flagBp e <;> cases hs : flagSymptom e <;>
      simp [h, hb, hs, weightRuleGen, bpRuleGen, symptomRuleGen]
  · intro h
    rw [hW]
    cases hb : flagBp e <;> cases hs : flagSymptom e <;>
      simp [h, hb, hs, weightRuleGen, bpRuleGen, symptomRuleGen]
  · intro h
    refine ⟨(genAccW db pid e).1.nextId, ?_⟩
    rw [hB]
    cases hw : flagWeight e <;> cases hs : flagSymptom e <;>
      simp [h, hw, hs, weightRuleGen, bpRuleGen, symptomRuleGen]
  · intro h
    rw [hB]
    cases hw : flagWeight e <;> cases hs : flagSymptom e <;>
      simp [h, hw, hs, weightRuleGen, bpRuleGen, symptomRuleGen]
  · intro h
    refine ⟨(genAccB db pid e).1.nextId, ?_⟩
    rw [hS]
    cases hw : flagWeight e <;> cases hb : flagBp e <;>
      simp [h, hw, hb, weightRuleGen, bpRuleGen, symptomRuleGen]
  · intro h
    rw [hS]
    cases hw : flagWeight e <;> cases hb : flagBp e <;>
      simp [h, hw, hb, weightRuleGen, bpRuleGen, symptomRuleGen]

/-- C10 (witness): an extraction with no clinical modules at all — every
monitoring flag defaults to `true` and each of the three monitoring
rules is generated. -/
theorem claim10_witness :
    (∃ i, (generateReminderRules emptyDB "p1" extractionScenario).1.reminder_rules.filter
        (fun r => r.rtype = "weight") = [] ++ [weightRuleGen "p1" i]) ∧
    (∃ i, (generateReminderRules emptyDB "p1" extractionScenario).1.reminder_rules.filter
        (fun r => r.rtype = "bp") = [] ++ [bpRuleGen "p1" i]) ∧
    (∃ i, (generateReminderRules emptyDB "p1" extractionScenario).1.reminder_rules.filter
        (fun r => r.rtype = "symptom_check") = [] ++ [symptomRuleGen "p1" i]) :=
  ⟨(claim10_monitoring_defaults emptyDB "p1" extractionScenario).2.2.2.1 rfl,
   (claim10_monitoring_defaults emptyDB "p1" extractionScenario).2.2.2.2.2.1 rfl,
   (claim10_monitoring_defaults emptyDB "p1" extractionScenario).2.2.2.2.2.2.2.1 rfl⟩

/-- C9 (witness): the three-escalation store, acknowledging Aspirin
resolves only the Aspirin escalation. -/
theorem claim9_witness :
    ((acknowledgeMedication envAllOk dbThreeEscs "p1" "Aspirin" "08:00" "taken" none
        t1300).getD emptyDB).escalations
      = dbThreeEscs.escalations.map (fun e =>
          if e.patient_id = "p1" ∧ e.status = "open" ∧
              e.trigger_type = "missed_medication" ∧ e.payload_med = some "Aspirin"
          then markPatientResolved t1300 e else e) :=
  claim9_ack_resolves_only_matching envAllOk dbThreeEscs _ "p1" "Aspirin" "08:00" none t1300
    (by norm_num [dbThreeEscs, emptyDB, escAspirin, escMetformin, escFiveMinOld,
      List.nodup_cons]) rfl

/-- C3 (amended, witness): two sweeps at 13:00 and 13:02 IST of the same
day — both times have matching UTC and IST dates — over a store with one
rule due at 13:00; the count for (p1, rule 50) stays at most one. -/
theorem claim3_amended_witness :
    utcDay t1300 = istDay t1300 ∧ utcDay (t1300 + 2) = istDay (t1300 + 2) ∧
      istDay (t1300 + 2) = istDay t1300 ∧
      (notifCount dbNoonRule "p1" 50 (istDay t1300)
          ≤ notifCount (evaluateAndSendReminders envAllOk
              (evaluateAndSendReminders envAllOk dbNoonRule t1300).1 (t1300 + 2)).1
              "p1" 50 (istDay t1300) ∧
        notifCount (evaluateAndSendReminders envAllOk
            (evaluateAndSendReminders envAllOk dbNoonRule t1300).1 (t1300 + 2)).1
            "p1" 50 (istDay t1300)
          ≤ max (notifCount dbNoonRule "p1" 50 (istDay t1300)) 1 ∧
        (notifCount dbNoonRule "p1" 50 (istDay t1300) = 0 →
          notifCount (evaluateAndSendReminders envAllOk
              (evaluateAndSendReminders envAllOk dbNoonRule t1300).1 (t1300 + 2)).1
              "p1" 50 (istDay t1300) ≤ 1) ∧
        (1 ≤ notifCount (evaluateAndSendReminders envAllOk dbNoonRule t1300).1
              "p1" 50 (istDay t1300) →
          notifCount (evaluateAndSendReminders envAllOk
              (evaluateAndSendReminders envAllOk dbNoonRule t1300).1 (t1300 + 2)).1
              "p1" 50 (istDay t1300)
            = notifCount (evaluateAndSendReminders envAllOk dbNoonRule t1300).1
                "p1" 50 (istDay t1300))) :=
  ⟨by decide, by decide, by decide,
   claim3_amended_dedupe envAllOk dbNoonRule t1300 (t1300 + 2) "p1" 50
     (by decide) (by decide) (by decide)⟩

/-- C6 (amended, witness): the scenario store (yesterday's weight 70,
threshold 1 kg) at 13:00 IST — logging 72 appends exactly one level-2
`weight_spike_24h` escalation with the two alert SMS, and a sub-threshold
log would leave the spike count unchanged. -/
theorem claim6_amended_witness :
    (ratSub 72 70 ≥ effT24 samplePatient →
      logPatientVital envAllOk dbScenario "p1" "weight" (VitalValue.num 72) t1300
        = some { dbScenario with
            vital_logs := dbScenario.vital_logs ++ [weightLogRec "p1" 72 t1300],
            escalations := dbScenario.escalations.map (resolveWeightMark "p1" t1300)
              ++ [weightEscRec "p1" "weight_spike_24h" dbScenario.nextId t1300],
            events := dbScenario.events ++
              [Event.sms "+93" (spikeNurseSms samplePatient
                 (gain24Message samplePatient 72 70)),
               Event.sms "+92" (spikeCaregiverSms samplePatient
                 (gain24Message samplePatient 72 70))],
            nextId := dbScenario.nextId + 1 }) ∧
    (¬ ratSub 72 70 ≥ effT24 samplePatient →
      ∃ db3, logPatientVital envAllOk dbScenario "p1" "weight" (VitalValue.num 72)
          t1300 = some db3 ∧
        (db3.escalations.filter
            (fun e => e.trigger_type = "weight_spike_24h")).length
          = (dbScenario.escalations.filter
              (fun e => e.trigger_type = "weight_spike_24h")).length) :=
  claim6_amended_weight_spike envAllOk dbScenario "p1" samplePatient 72 70 t1300
    weightLogDay9 "+93" "+92" (by decide) (by simp [dbScenario, emptyDB]) (by decide)
    (by decide) (by decide) rfl rfl rfl (by decide) (by decide)

/-- C1 (amended): for the four missed-action trigger types, at most one
open escalation exists per (patient, trigger type, date, medication)
tuple, and every sequence of operations — patient actions, engine runs,
scheduler sweeps, provider acknowledgements and resolutions — preserves
this from any well-formed store.  (The immediate threshold path creates
its spike and red-flag escalations unconditionally, so the invariant
does not extend to those triggers; see the counterexample.) -/
theorem claim1_amended_open_uniqueness (env : Env) (ops : List Op) (db : DB)
    (hw : WF db) (hu : OpenUniqMissed db.escalations) :
    OpenUniqMissed (runOps env ops db).escalations :=
  (runOps_step env ops db hw).2.2.2 hu

/-- C1 (amended, witness): the three-escalation store is well-formed and
missed-trigger open-unique, and stays open-unique through a
medication-acknowledgement operation. -/
theorem claim1_amended_witness :
    WF dbThreeEscs ∧ OpenUniqMissed dbThreeEscs.escalations ∧
      OpenUniqMissed (runOps envAllOk
        [Op.ackMedication "p1" "Aspirin" "08:00" "taken" none t1300]
        dbThreeEscs).escalations := by
  have hWF : WF dbThreeEscs := by
    refine ⟨?_, ?_, ?_, ?_⟩
    · norm_num [dbThreeEscs, emptyDB, escAspirin, escMetformin, escFiveMinOld,
        List.nodup_cons]
    · decide
    · decide
    · decide
  exact ⟨hWF, by decide, claim1_amended_open_uniqueness envAllOk
    [Op.ackMedication "p1" "Aspirin" "08:00" "taken" none t1300] dbThreeEscs hWF
    (by decide)⟩

/-- C2: starting from any well-formed store, every operation — and hence
every operation sequence — evolves each escalation monotonically: no
record disappears, identity fields are stable, the level never decreases
and stays at most 2, the status moves only from `open` to `resolved`, and
any newly created escalation whose trigger is one of `weight_spike_24h`,
`weight_spike_7d`, `red_flag`, `consecutive_missed_weight` is created at
level 2 (others stay within 0–2).  `_handle_missed_action` itself
promotes an existing escalation by exactly one level, only from levels 0
and 1, and creates only level-0 escalations. -/
theorem claim2_level_monotonicity :
    (∀ (env : Env) (op : Op) (db : DB), WF db →
      EscEvolves db.escalations (applyOp env op db).escalations) ∧
    (∀ (env : Env) (ops : List Op) (db : DB), WF db →
      EscEvolves db.escalations (runOps env ops db).escalations) ∧
    (∀ (env : Env) (db : DB) (p : Patient) (trigger : String) (today : Nat)
        (extra : Option MedExtra) (now : Nat) (st : EscStats),
      (db.escalations.map (fun e => e.id)).Nodup →
      HandlerEvolves db.escalations
        (handleMissedAction env db p trigger today extra now st).1.escalations) :=
  ⟨fun env op db hw => (applyOp_step env op db hw).2.1,
   fun env ops db hw => (runOps_step env ops db hw).2.1,
   fun env db p trigger today extra now st hn =>
     handleMissed_evolves env db p trigger today extra now st hn⟩

end Sidiya
